import Mathlib

/-!
Verification of the GeoIP range-to-country resolution core of the
netadmin-snippets repository.

The embedding covers:
  * the CIDR summarization used by ip_range_to_cidr and the batch resolvers
    (Python stdlib ipaddress.summarize_address_range, described in spec §4.3);
  * find_country_continent_cidr of geoip_csv_batch_query.py and of
    ipinfo_io_country_csv_batch_query.py;
  * the chunked pipeline process_chunk / process_excel of both batch scripts;
  * detect_format_and_load (geoip_csv_batch_query.py), detect_format_and_collect
    and collect (geoip_csv_export.py), and load_geoip_data.

Machine addresses are modelled as Nat (32-bit for IPv4, 128-bit for IPv6;
the Python code never overflows: it compares and summarizes arbitrary-precision
ints produced by the ipaddress module, so no modular reduction is needed).
String-to-address parsing is performed by the external ipaddress module; it is
modelled by explicit parse functions (String to Option) and by pre-classified
query inputs.
-/

/-- Numeric value of a dotted-quad IPv4 address. -/
def ipv4Num (a b c d : Nat) : Nat :=
  ((a * 256 + b) * 256 + c) * 256 + d

/-- Dotted-quad rendering of an IPv4 address value, as produced by
str(IPv4Address(n)). -/
def ipv4String (n : Nat) : String :=
  Nat.repr (n / 16777216 % 256) ++ "." ++ Nat.repr (n / 65536 % 256) ++ "." ++
    Nat.repr (n / 256 % 256) ++ "." ++ Nat.repr (n % 256)

/-- Rendering of an IPv4 CIDR block, as produced by str(IPv4Network(b)).
A block is a pair (network address, host-bits exponent): it covers the
2 ^ b.2 addresses starting at b.1, so its prefix length is 32 - b.2. -/
def cidr4String (b : Nat × Nat) : String :=
  ipv4String b.1 ++ "/" ++ Nat.repr (32 - b.2)

/-- Structural-recursion floor logarithm in base two, the value of
(n).bit_length() - 1 for n >= 1.  Fuel-based so that the kernel can
evaluate it; log2N below instantiates the fuel. -/
def log2Fuel : Nat → Nat → Nat
  | 0, _ => 0
  | fuel + 1, n => if 2 ≤ n then log2Fuel fuel (n / 2) + 1 else 0

/-- Floor logarithm in base two (Python's (n).bit_length() - 1 for n >= 1). -/
def log2N (n : Nat) : Nat := log2Fuel n n

/-- Modelled from the spec: the block-size choice of the range-to-CIDR
decomposition of §4.3, which is Python's ipaddress.summarize_address_range
step nbits = min(count_righthand_zero_bits(first), (last - first + 1)
.bit_length() - 1).  Both constraints (2 ^ k divides first, and 2 ^ k no
larger than the remaining interval) are downward closed, so the minimum of
the two maxima is the greatest k below the length bound with 2 ^ k dividing
first; Nat.findGreatest computes exactly that (first = 0 is divisible by
every power, giving the length bound itself, as in Python where the
trailing-zero count of 0 is capped at the address width). -/
def nbitsFor (first len : Nat) : Nat :=
  Nat.findGreatest (fun k => 2 ^ k ∣ first) (log2N len)

/-- Modelled from the spec: the loop of ipaddress.summarize_address_range
(§4.3): while first <= last, emit the block of 2 ^ nbits addresses at first
and advance first past it.  Fuel-based structural recursion; the interval
length is sufficient fuel since every block holds at least one address. -/
def summarizeFuel : Nat → Nat → Nat → List (Nat × Nat)
  | 0, _, _ => []
  | fuel + 1, first, last =>
    if first ≤ last then
      (first, nbitsFor first (last - first + 1)) ::
        summarizeFuel fuel (first + 2 ^ nbitsFor first (last - first + 1)) last
    else []

/-- Modelled from the spec: ipaddress.summarize_address_range, the CIDR
summarization called by ip_range_to_cidr (geoip_csv_export.py lines 11-15,
ipinfo_io_country_csv_export.py lines 7-11) and by both batch resolvers.
Returns the blocks as (network address, host-bits exponent) pairs. -/
def summarize_address_range (first last : Nat) : List (Nat × Nat) :=
  summarizeFuel (last + 1 - first) first last

/-- Comma-and-space join of rendered IPv4 blocks: the cidr string built by
the batch resolvers (geoip_csv_batch_query.py line 104). -/
def cidr4Join (blocks : List (Nat × Nat)) : String :=
  String.intercalate ", " (blocks.map cidr4String)

/-- Membership test of a character in a string, modelling Python's
colon/dot containment checks; phrased over the character list so that the
kernel can evaluate it. -/
def strContains (s : String) (c : Char) : Bool := s.data.contains c

/-- Result of ipaddress.ip_address: a parsed address with its family. -/
inductive IPAddr where
  | v4 (value : Nat)
  | v6 (value : Nat)
deriving DecidableEq

/-- Family number as reported by the version attribute. -/
def IPAddr.version : IPAddr → Nat
  | .v4 _ => 4
  | .v6 _ => 6

/-- Underlying integer value of a parsed address. -/
def IPAddr.value : IPAddr → Nat
  | .v4 v => v
  | .v6 v => v

/-- One loaded GeoIP range row: start_ip, end_ip, country, continent_name
columns of the normalized DataFrame (spec §3 RangeRecord). -/
structure RangeRecord where
  start_ip : Nat
  end_ip : Nat
  country : String
  continent_name : String
deriving DecidableEq

/-- One query item of the input series, pre-classified by the external
ipaddress parsers exactly as the batch scripts invoke them:
  * malformed: the raw string fails parsing (raises ValueError);
  * addr: no solidus in the string, ip_address succeeds with the given
    family version and integer value;
  * cidr: the string contains a solidus and ip_network(ip, strict=False)
    succeeds, with the given network_address and broadcast_address values.
Each constructor keeps the raw input string. -/
inductive QueryInput where
  | malformed (raw : String)
  | addr (version : Nat) (value : Nat) (raw : String)
  | cidr (version : Nat) (network broadcast : Nat) (raw : String)
deriving DecidableEq

/-- Raw string of a query item. -/
def QueryInput.raw : QueryInput → String
  | .malformed s => s
  | .addr _ _ s => s
  | .cidr _ _ _ s => s

/-- Whether the item is a CIDR query (its string contains a solidus and
parses as a network). -/
def QueryInput.isCidr : QueryInput → Bool
  | .cidr _ _ _ _ => true
  | _ => false

/-- Whether the item fails parsing. -/
def QueryInput.isMalformed : QueryInput → Bool
  | .malformed _ => true
  | _ => false

/-- Outcome of resolving one item of the series, before it is appended to
the four parallel result lists. -/
inductive ItemResult where
  | ok (country continent : String) (cidr : List (Nat × Nat))
  | noMatch
  | parseError (raw : String)
deriving DecidableEq

/-- One entry of the errors list of find_country_continent_cidr, keeping the
identifying parts of the formatted message: the no-match message holds the
raw query, the skipped message holds the raw query and the reported row
number. -/
inductive FcccError where
  | noMatch (ip : String)
  | skipped (ip : String) (rowNumber : Nat)
deriving DecidableEq

/-- The four parallel lists returned by find_country_continent_cidr. -/
structure SeriesResult where
  countries : List (Option String)
  continents : List (Option String)
  cidrs : List (Option (List (Nat × Nat)))
  errors : List FcccError
deriving DecidableEq

/-- One output row of a processed chunk: the IP column plus the Country,
Continent and CIDR columns added by process_chunk (None cells are none). -/
structure RowOut where
  ip : String
  country : Option String
  continent : Option String
  cidr : Option (List (Nat × Nat))
deriving DecidableEq

namespace GeoipBatch

/-- Resolution of a single series item by find_country_continent_cidr of
geoip_csv_batch_query.py (lines 80-118): a solidus selects CIDR handling
(first match must contain both network and broadcast address), otherwise
single-address containment; the family-4 table is scanned when the parsed
version is 4, the family-6 table otherwise; the first matching row in load
order supplies country and continent_name, and the cidr is the
summarization of that row's own start_ip..end_ip interval. -/
def classify (ipv4_data ipv6_data : List RangeRecord) : QueryInput → ItemResult
  | .malformed raw => .parseError raw
  | .addr version value _ =>
    match (if version = 4 then ipv4_data else ipv6_data).find?
        (fun r => decide (r.start_ip ≤ value ∧ r.end_ip ≥ value)) with
    | some row => .ok row.country row.continent_name
        (summarize_address_range row.start_ip row.end_ip)
    | none => .noMatch
  | .cidr version network broadcast _ =>
    match (if version = 4 then ipv4_data else ipv6_data).find?
        (fun r => decide (r.start_ip ≤ network ∧ r.end_ip ≥ broadcast)) with
    | some row => .ok row.country row.continent_name
        (summarize_address_range row.start_ip row.end_ip)
    | none => .noMatch

end GeoipBatch

namespace IpinfoBatch

/-- Resolution of a single series item by find_country_continent_cidr of
ipinfo_io_country_csv_batch_query.py (lines 46-74): the item is always fed
to ip_address, so a CIDR string (containing a solidus) raises ValueError
and is recorded as an error; otherwise the logic equals the geoip script's
single-address branch. -/
def classify (ipv4_data ipv6_data : List RangeRecord) : QueryInput → ItemResult
  | .malformed raw => .parseError raw
  | .cidr _ _ _ raw => .parseError raw
  | .addr version value _ =>
    match (if version = 4 then ipv4_data else ipv6_data).find?
        (fun r => decide (r.start_ip ≤ value ∧ r.end_ip ≥ value)) with
    | some row => .ok row.country row.continent_name
        (summarize_address_range row.start_ip row.end_ip)
    | none => .noMatch

end IpinfoBatch

namespace BatchCore

/-!
The series loop and the chunked pipeline are textually shared by
geoip_csv_batch_query.py and ipinfo_io_country_csv_batch_query.py; the two
scripts differ only in the per-item resolution (the classify functions
above) and in whether an unmatched item appends a "No match found" message
to the errors list (geoip_csv_batch_query.py line 112 does,
ipinfo_io_country_csv_batch_query.py does not) and in the final
dropna(subset=['Country']) (geoip_csv_batch_query.py line 180 only).
The definitions below therefore take the per-item resolution cls and the
flag noMatchErrors as parameters; each script instantiates them.
-/

/-- Loop body of find_country_continent_cidr over the series, carrying the
running item index i; the reported row number of a skipped item is
start_index + i + 1 for text input and start_index + i + 2 for Excel input
(one-based plus header row). -/
def fcccGo (cls : QueryInput → ItemResult) (noMatchErrors : Bool)
    (start_index : Nat) (is_text_file : Bool) : Nat → List QueryInput → SeriesResult
  | _, [] => ⟨[], [], [], []⟩
  | i, q :: rest =>
    let acc := fcccGo cls noMatchErrors start_index is_text_file (i + 1) rest
    match cls q with
    | .ok c cont ci =>
      ⟨some c :: acc.countries, some cont :: acc.continents, some ci :: acc.cidrs, acc.errors⟩
    | .noMatch =>
      ⟨none :: acc.countries, none :: acc.continents, none :: acc.cidrs,
        if noMatchErrors then .noMatch q.raw :: acc.errors else acc.errors⟩
    | .parseError s =>
      ⟨none :: acc.countries, none :: acc.continents, none :: acc.cidrs,
        .skipped s (start_index + i + (if is_text_file then 1 else 2)) :: acc.errors⟩

/-- find_country_continent_cidr applied to a whole series (loop starts at
item index 0). -/
def find_country_continent_cidr (cls : QueryInput → ItemResult) (noMatchErrors : Bool)
    (start_index : Nat) (is_text_file : Bool) (series : List QueryInput) : SeriesResult :=
  fcccGo cls noMatchErrors start_index is_text_file 0 series

/-- Zip of the chunk's IP column with the three columns produced by the
resolver, one output row per item (process_chunk lines 139-141). -/
def buildRows : List QueryInput → List (Option String) → List (Option String) →
    List (Option (List (Nat × Nat))) → List RowOut
  | q :: qs, c :: cs, co :: cos, ci :: cis =>
    ⟨q.raw, c, co, ci⟩ :: buildRows qs cs cos cis
  | _, _, _, _ => []

/-- process_chunk: resolve the chunk's series and return the chunk rows
tagged with their OriginalIndex column (the chunk keeps the global
DataFrame index, a contiguous range starting at start_index), plus the
chunk's errors. -/
def process_chunk (cls : QueryInput → ItemResult) (noMatchErrors : Bool)
    (is_text_file : Bool) (start_index : Nat) (chunk : List QueryInput) :
    List (Nat × RowOut) × List FcccError :=
  let res := find_country_continent_cidr cls noMatchErrors start_index is_text_file chunk
  ((List.range' start_index chunk.length).zip
      (buildRows chunk res.countries res.continents res.cidrs),
    res.errors)

/-- The chunk comprehension plus worker dispatch of process_excel /
process_text_file: chunks are rows[i:i+k] for i in range(0, n, k), and the
chunk starting at i is processed with start_index i.  Fuel-based recursion
with the start offset as accumulator; the input length is sufficient fuel
for any positive k. -/
def chunkResultsGo (cls : QueryInput → ItemResult) (noMatchErrors : Bool)
    (is_text_file : Bool) (k : Nat) :
    Nat → Nat → List QueryInput → List (List (Nat × RowOut) × List FcccError)
  | _, _, [] => []
  | 0, _, _ :: _ => []
  | fuel + 1, s, rows@(_ :: _) =>
    process_chunk cls noMatchErrors is_text_file s (rows.take k) ::
      chunkResultsGo cls noMatchErrors is_text_file k fuel (s + k) (rows.drop k)

/-- All chunk results of one pipeline run, in chunk submission order. -/
def chunkResults (cls : QueryInput → ItemResult) (noMatchErrors : Bool)
    (is_text_file : Bool) (k : Nat) (rows : List QueryInput) :
    List (List (Nat × RowOut) × List FcccError) :=
  chunkResultsGo cls noMatchErrors is_text_file k rows.length 0 rows

/-- The row a given input item contributes: its Country / Continent / CIDR
cells filled on a match, all three None otherwise. -/
def itemRow (cls : QueryInput → ItemResult) (q : QueryInput) : RowOut :=
  match cls q with
  | .ok c cont ci => ⟨q.raw, some c, some cont, some ci⟩
  | _ => ⟨q.raw, none, none, none⟩

/-- Canonical position-tagged output rows: every input item in original
order, tagged with its zero-based position. -/
def pipelineRows (cls : QueryInput → ItemResult) (rows : List QueryInput) :
    List (Nat × RowOut) :=
  (List.range' 0 rows.length).zip (rows.map (itemRow cls))

/-- The error entries a single item at global position pos contributes. -/
def itemErrors (cls : QueryInput → ItemResult) (noMatchErrors : Bool)
    (is_text_file : Bool) (pos : Nat) (q : QueryInput) : List FcccError :=
  match cls q with
  | .ok _ _ _ => []
  | .noMatch => if noMatchErrors then [.noMatch q.raw] else []
  | .parseError s => [.skipped s (pos + (if is_text_file then 1 else 2))]

/-- Canonical error list of a series whose first item sits at global
position pos, in item order. -/
def seriesErrors (cls : QueryInput → ItemResult) (noMatchErrors : Bool)
    (is_text_file : Bool) : Nat → List QueryInput → List FcccError
  | _, [] => []
  | pos, q :: rest =>
    itemErrors cls noMatchErrors is_text_file pos q ++
      seriesErrors cls noMatchErrors is_text_file (pos + 1) rest

/-- The dropna(subset=['Country']) step of geoip_csv_batch_query.py line
180: keep only rows whose Country cell is set. -/
def dropnaCountry (l : List (Nat × RowOut)) : List (Nat × RowOut) :=
  l.filter (fun r => r.2.country.isSome)

end BatchCore

/-- Fixed-size contiguous chunking, rows[i:i+k] for i in range(0, n, k);
fuel-based with the list length as fuel (enough for any positive k). -/
def splitChunksGo (k : Nat) : Nat → List α → List (List α)
  | _, [] => []
  | 0, _ :: _ => []
  | fuel + 1, rows@(_ :: _) => rows.take k :: splitChunksGo k fuel (rows.drop k)

/-- The chunk partition of the pipeline input. -/
def splitChunks (k : Nat) (rows : List α) : List (List α) :=
  splitChunksGo k rows.length rows

/-- Default of the chunk_size configuration value: parse_arguments of
geoip_csv_batch_query.py line 241 (also the interactive default, line 267). -/
def default_chunk_size : Nat := 500

namespace GeoipBatch

/-- find_country_continent_cidr of geoip_csv_batch_query.py: the shared
series loop with this script's per-item resolution and with the no-match
error message of line 112. -/
def find_country_continent_cidr (ipv4_data ipv6_data : List RangeRecord)
    (start_index : Nat) (is_text_file : Bool) (series : List QueryInput) : SeriesResult :=
  BatchCore.find_country_continent_cidr (classify ipv4_data ipv6_data) true
    start_index is_text_file series

/-- All chunk results of one run of process_excel / process_text_file of
geoip_csv_batch_query.py (lines 169-177), in submission order. -/
def chunkResults (ipv4_data ipv6_data : List RangeRecord) (is_text_file : Bool)
    (chunk_size : Nat) (rows : List QueryInput) :
    List (List (Nat × RowOut) × List FcccError) :=
  BatchCore.chunkResults (classify ipv4_data ipv6_data) true is_text_file chunk_size rows

/-- Canonical position-tagged rows of this script's pipeline. -/
def pipelineRows (ipv4_data ipv6_data : List RangeRecord) (rows : List QueryInput) :
    List (Nat × RowOut) :=
  BatchCore.pipelineRows (classify ipv4_data ipv6_data) rows

end GeoipBatch

namespace IpinfoBatch

/-- find_country_continent_cidr of ipinfo_io_country_csv_batch_query.py:
the shared series loop with this script's per-item resolution; an
unmatched item appends no error. -/
def find_country_continent_cidr (ipv4_data ipv6_data : List RangeRecord)
    (start_index : Nat) (is_text_file : Bool) (series : List QueryInput) : SeriesResult :=
  BatchCore.find_country_continent_cidr (classify ipv4_data ipv6_data) false
    start_index is_text_file series

/-- All chunk results of one run of process_excel / process_text_file of
ipinfo_io_country_csv_batch_query.py (lines 132-141), in submission
order. -/
def chunkResults (ipv4_data ipv6_data : List RangeRecord) (is_text_file : Bool)
    (chunk_size : Nat) (rows : List QueryInput) :
    List (List (Nat × RowOut) × List FcccError) :=
  BatchCore.chunkResults (classify ipv4_data ipv6_data) false is_text_file chunk_size rows

/-- Canonical position-tagged rows of this script's pipeline. -/
def pipelineRows (ipv4_data ipv6_data : List RangeRecord) (rows : List QueryInput) :
    List (Nat × RowOut) :=
  BatchCore.pipelineRows (classify ipv4_data ipv6_data) rows

end IpinfoBatch

/-- Schema detection of geoip_csv_batch_query.py::detect_format_and_load
(lines 61-74), applied to the DataFrame produced by pd.read_csv: given the
inferred column names and the first data row, try the three dialects in
priority order and return the normalized column names, or fail with
"Unknown CSV format." when none matches.  Dialect 1 (ipinfo.io) keeps the
columns; dialect 2 (dbip-country-lite: exactly three columns whose first
two first-row fields contain a dot) renames them to start_ip, end_ip,
country; dialect 3 (ipapi.is) renames country_code to country. -/
def detect_format_and_load (columns : List String) (firstRow : List String) :
    Except String (List String) :=
  if "start_ip" ∈ columns ∧ "end_ip" ∈ columns ∧ "country" ∈ columns then
    .ok columns
  else if columns.length = 3 ∧ ((firstRow.take 2).all fun f => strContains f '.') = true then
    .ok ["start_ip", "end_ip", "country"]
  else if "ip_version" ∈ columns ∧ "start_ip" ∈ columns ∧ "end_ip" ∈ columns ∧
      "country_code" ∈ columns then
    .ok (columns.map fun c => if c = "country_code" then "country" else c)
  else
    .error "Unknown CSV format."

/-- One normalized source row handed to load_geoip_data: the start_ip,
end_ip, country and continent_name cells as strings. -/
structure RawRow where
  start_ip : String
  end_ip : String
  country : String
  continent_name : String
deriving DecidableEq

/-- Table construction of load_geoip_data (geoip_csv_batch_query.py lines
36-43, identically ipinfo_io_country_csv_batch_query.py lines 30-37): apply
ipaddress.ip_address to the start_ip and end_ip columns (the external
parser is the parse argument), then split rows by the version of start_ip.
pandas.Series.apply propagates the first ValueError, so one unparsable
address aborts the whole load with no partial table and no per-row error;
the model returns Except.error in that case. -/
def load_geoip_data (parse : String → Option IPAddr) :
    List RawRow → Except String (List RangeRecord × List RangeRecord)
  | [] => .ok ([], [])
  | r :: rest =>
    match parse r.start_ip, parse r.end_ip with
    | some a, some b =>
      match load_geoip_data parse rest with
      | .ok (ipv4_data, ipv6_data) =>
        if a.version = 4 then
          .ok (⟨a.value, b.value, r.country, r.continent_name⟩ :: ipv4_data, ipv6_data)
        else
          .ok (ipv4_data, ⟨a.value, b.value, r.country, r.continent_name⟩ :: ipv6_data)
      | .error msg => .error msg
    | _, _ => .error "could not convert string to address"

/-- One pool entry appended by collect of geoip_csv_export.py: the Python
code groups entries in a dict keyed by country code with one v4 and one v6
pool per country; the model keeps the appended entries in row order with
their country tag and family flag, which determines every pool's content. -/
structure PoolEntry where
  country : String
  isV6 : Bool
  startAddr : Nat
  endAddr : Nat
deriving DecidableEq

/-- Row collection of geoip_csv_export.py::collect (lines 127-154).  The
line counter starts at 1 and is incremented before each row, so the i-th
processed row (zero-based) reports line number i + 2.  A row with
insufficient columns is reported (stderr message with its line number,
modelled as the returned error list) and skipped; otherwise the start and
end cells are parsed with IPv4Address or IPv6Address according to whether
the start cell contains a colon, and an unparsable address raises,
aborting the whole collection (modelled as Except.error). -/
def collectGo (parseV4 parseV6 : String → Option Nat)
    (start_ip_col end_ip_col country_code_col : Nat) :
    List (List String) → Nat → Except String (List PoolEntry × List Nat)
  | [], _ => .ok ([], [])
  | row :: rest, line_num =>
    if row.length ≤ max start_ip_col (max end_ip_col country_code_col) then
      match collectGo parseV4 parseV6 start_ip_col end_ip_col country_code_col rest (line_num + 1) with
      | .ok (entries, errs) => .ok (entries, (line_num + 1) :: errs)
      | .error m => .error m
    else
      if strContains (row.getD start_ip_col "") ':' then
        match parseV6 (row.getD start_ip_col ""), parseV6 (row.getD end_ip_col "") with
        | some a, some b =>
          match collectGo parseV4 parseV6 start_ip_col end_ip_col country_code_col rest (line_num + 1) with
          | .ok (entries, errs) =>
            .ok (⟨row.getD country_code_col "", true, a, b⟩ :: entries, errs)
          | .error m => .error m
        | _, _ => .error "does not appear to be an IPv6 address"
      else
        match parseV4 (row.getD start_ip_col ""), parseV4 (row.getD end_ip_col "") with
        | some a, some b =>
          match collectGo parseV4 parseV6 start_ip_col end_ip_col country_code_col rest (line_num + 1) with
          | .ok (entries, errs) =>
            .ok (⟨row.getD country_code_col "", false, a, b⟩ :: entries, errs)
          | .error m => .error m
        | _, _ => .error "does not appear to be an IPv4 address"

/-- collect applied to a whole source (line counter starts at 1). -/
def collect (parseV4 parseV6 : String → Option Nat)
    (start_ip_col end_ip_col country_code_col : Nat) (rows : List (List String)) :
    Except String (List PoolEntry × List Nat) :=
  collectGo parseV4 parseV6 start_ip_col end_ip_col country_code_col rows 1

/-- Whether a row has too few columns for the configured indices: the skip
condition of collect. -/
def rowShort (start_ip_col end_ip_col country_code_col : Nat) (row : List String) : Bool :=
  decide (row.length ≤ max start_ip_col (max end_ip_col country_code_col))

/-- Whether both address cells of a row parse in the family chosen by the
colon test on the start cell. -/
def rowParses (parseV4 parseV6 : String → Option Nat)
    (start_ip_col end_ip_col : Nat) (row : List String) : Bool :=
  if strContains (row.getD start_ip_col "") ':' then
    (parseV6 (row.getD start_ip_col "")).isSome && (parseV6 (row.getD end_ip_col "")).isSome
  else
    (parseV4 (row.getD start_ip_col "")).isSome && (parseV4 (row.getD end_ip_col "")).isSome

/-- The pool entry a row contributes when it is long enough and parses. -/
def rowEntry (parseV4 parseV6 : String → Option Nat)
    (start_ip_col end_ip_col country_code_col : Nat) (row : List String) :
    Option PoolEntry :=
  if rowShort start_ip_col end_ip_col country_code_col row then none
  else if strContains (row.getD start_ip_col "") ':' then
    match parseV6 (row.getD start_ip_col ""), parseV6 (row.getD end_ip_col "") with
    | some a, some b => some ⟨row.getD country_code_col "", true, a, b⟩
    | _, _ => none
  else
    match parseV4 (row.getD start_ip_col ""), parseV4 (row.getD end_ip_col "") with
    | some a, some b => some ⟨row.getD country_code_col "", false, a, b⟩
    | _, _ => none

/-- Line numbers reported for the skipped short rows, in source order; the
first row of the list is reported at line_num + 1. -/
def shortLineNums (start_ip_col end_ip_col country_code_col : Nat) :
    List (List String) → Nat → List Nat
  | [], _ => []
  | row :: rest, line_num =>
    if rowShort start_ip_col end_ip_col country_code_col row then
      (line_num + 1) ::
        shortLineNums start_ip_col end_ip_col country_code_col rest (line_num + 1)
    else shortLineNums start_ip_col end_ip_col country_code_col rest (line_num + 1)

/-- Exact header recognized as the ipinfo.io dialect by
detect_format_and_collect (geoip_csv_export.py line 104). -/
def ipinfoHeader : List String :=
  ["start_ip", "end_ip", "country", "country_name", "continent", "continent_name"]

/-- Exact header recognized as the ipapi.is dialect by
detect_format_and_collect (geoip_csv_export.py line 115). -/
def ipapiHeader : List String :=
  ["ip_version", "start_ip", "end_ip", "continent", "country_code", "country",
    "state", "city", "zip", "timezone", "latitude", "longitude", "accuracy"]

/-- Schema detection of geoip_csv_export.py::detect_format_and_collect
(lines 99-125): peek at the first row; an exact ipinfo.io header selects
columns 0,1,2 and skips the header; a three-field row whose first two
fields contain a dot selects columns 0,1,2 keeping the caller's
ignore_first_row; an exact ipapi.is header selects columns 1,2,4 and skips
the header; otherwise the caller-supplied column indices and
ignore_first_row are used unchanged (there is no failure case).  When the
first row is not to be skipped it is re-supplied to collect. -/
def detect_format_and_collect (parseV4 parseV6 : String → Option Nat)
    (ignore_first_row : Bool) (start_ip_col end_ip_col country_code_col : Nat)
    (first_row : List String) (rest : List (List String)) :
    Except String (List PoolEntry × List Nat) :=
  let p : Bool × Nat × Nat × Nat :=
    if first_row = ipinfoHeader then (true, 0, 1, 2)
    else if first_row.length = 3 ∧ ((first_row.take 2).all fun f => strContains f '.') = true then
      (ignore_first_row, 0, 1, 2)
    else if first_row = ipapiHeader then (true, 1, 2, 4)
    else (ignore_first_row, start_ip_col, end_ip_col, country_code_col)
  collect parseV4 parseV6 p.2.1 p.2.2.1 p.2.2.2
    (if p.1 then rest else first_row :: rest)

/-- Containment test the resolver applies to a record: an address query must
lie inside the record's interval; a CIDR query needs both its network and
its broadcast address inside (geoip_csv_batch_query.py lines 86-98).  This
restates the find predicates of the classify functions for use in theorem
statements. -/
def containsQuery (r : RangeRecord) : QueryInput → Bool
  | .malformed _ => false
  | .addr _ value _ => decide (r.start_ip ≤ value ∧ r.end_ip ≥ value)
  | .cidr _ network broadcast _ => decide (r.start_ip ≤ network ∧ r.end_ip ≥ broadcast)

/-- Family table the resolver scans for a query. -/
def famTable (ipv4_data ipv6_data : List RangeRecord) : QueryInput → List RangeRecord
  | .malformed _ => []
  | .addr version _ _ => if version = 4 then ipv4_data else ipv6_data
  | .cidr version _ _ _ => if version = 4 then ipv4_data else ipv6_data

/-- Concrete stand-in for ipaddress.ip_address over the handful of strings
the witnesses use. -/
def demoParse : String → Option IPAddr := fun s =>
  if s = "10.0.0.0" then some (.v4 (ipv4Num 10 0 0 0))
  else if s = "10.0.0.255" then some (.v4 (ipv4Num 10 0 0 255))
  else none

/-- Concrete stand-in for IPv4Address parsing in the witnesses. -/
def demoParseV4 : String → Option Nat := fun s =>
  if s = "10.0.0.0" then some (ipv4Num 10 0 0 0)
  else if s = "10.0.0.255" then some (ipv4Num 10 0 0 255)
  else none

/-- Concrete stand-in for IPv6Address parsing in the witnesses. -/
def demoParseV6 : String → Option Nat := fun _ => none

/-! ### Properties of the CIDR summarization (claims C1, C2) -/

theorem log2Fuel_pow_le : ∀ (fuel n : Nat), 1 ≤ n → n ≤ fuel → 2 ^ log2Fuel fuel n ≤ n := by
  intro fuel
  induction fuel with
  | zero => intro n h1 h2; omega
  | succ f ih =>
    intro n h1 h2
    unfold log2Fuel
    by_cases h : 2 ≤ n
    · simp only [h, if_true]
      have hn2 : 1 ≤ n / 2 := by omega
      have hf : n / 2 ≤ f := by omega
      have hrec := ih (n / 2) hn2 hf
      have : 2 ^ (log2Fuel f (n / 2) + 1) = 2 ^ log2Fuel f (n / 2) * 2 := by ring
      omega
    · simp only [h, if_false]
      simpa using h1

theorem nbitsFor_dvd (first len : Nat) : 2 ^ nbitsFor first len ∣ first := by
  unfold nbitsFor
  exact Nat.findGreatest_spec (P := fun k => 2 ^ k ∣ first) (Nat.zero_le _) (by simp)

theorem nbitsFor_le (first len : Nat) (h : 1 ≤ len) : 2 ^ nbitsFor first len ≤ len := by
  have h1 : nbitsFor first len ≤ log2N len := Nat.findGreatest_le _
  have h2 : 2 ^ log2N len ≤ len := log2Fuel_pow_le len len h (le_refl _)
  exact le_trans (Nat.pow_le_pow_right (by norm_num) h1) h2

theorem summarizeFuel_cover : ∀ (fuel first last : Nat), last + 1 - first ≤ fuel →
    ∀ x, (∃ b ∈ summarizeFuel fuel first last, b.1 ≤ x ∧ x < b.1 + 2 ^ b.2) ↔
      (first ≤ x ∧ x ≤ last) := by
  intro fuel
  induction fuel with
  | zero =>
    intro first last h x
    constructor
    · rintro ⟨b, hb, _⟩
      simp [summarizeFuel] at hb
    · intro hx; omega
  | succ f ih =>
    intro first last h x
    by_cases hle : first ≤ last
    · have hlen : 1 ≤ last - first + 1 := by omega
      have hsz := nbitsFor_le first (last - first + 1) hlen
      have hpos : 1 ≤ 2 ^ nbitsFor first (last - first + 1) := Nat.one_le_two_pow
      have ihtail := ih (first + 2 ^ nbitsFor first (last - first + 1)) last (by omega) x
      simp only [summarizeFuel, hle, if_true, List.mem_cons]
      constructor
      · rintro ⟨b, hb | hb, hx1, hx2⟩
        · subst hb
          simp only at hx1 hx2
          omega
        · have := ihtail.1 ⟨b, hb, hx1, hx2⟩
          omega
      · intro hx
        by_cases hcase : x < first + 2 ^ nbitsFor first (last - first + 1)
        · exact ⟨(first, nbitsFor first (last - first + 1)), Or.inl rfl, hx.1, hcase⟩
        · obtain ⟨b, hb, h1, h2⟩ := ihtail.2 ⟨by omega, hx.2⟩
          exact ⟨b, Or.inr hb, h1, h2⟩
    · simp only [summarizeFuel, hle, if_false, List.not_mem_nil]
      constructor
      · rintro ⟨b, hb, _⟩
        exact hb.elim
      · intro hx
        omega

theorem summarizeFuel_start_le : ∀ (fuel first last : Nat), ∀ b ∈ summarizeFuel fuel first last,
    first ≤ b.1 := by
  intro fuel
  induction fuel with
  | zero =>
    intro first last b hb
    simp [summarizeFuel] at hb
  | succ f ih =>
    intro first last b hb
    by_cases hle : first ≤ last
    · simp only [summarizeFuel, hle, if_true, List.mem_cons] at hb
      rcases hb with hb | hb
      · subst hb
        exact le_refl _
      · have := ih _ last b hb
        have hpos : 1 ≤ 2 ^ nbitsFor first (last - first + 1) := Nat.one_le_two_pow
        omega
    · simp [summarizeFuel, hle] at hb

theorem summarizeFuel_pairwise : ∀ (fuel first last : Nat),
    (summarizeFuel fuel first last).Pairwise (fun b c => b.1 + 2 ^ b.2 ≤ c.1) := by
  intro fuel
  induction fuel with
  | zero =>
    intro first last
    simp [summarizeFuel]
  | succ f ih =>
    intro first last
    by_cases hle : first ≤ last
    · simp only [summarizeFuel, hle, if_true]
      refine List.Pairwise.cons ?_ (ih _ last)
      intro c hc
      exact summarizeFuel_start_le f _ last c hc
    · simp [summarizeFuel, hle]

theorem summarizeFuel_aligned : ∀ (fuel first last : Nat), ∀ b ∈ summarizeFuel fuel first last,
    2 ^ b.2 ∣ b.1 := by
  intro fuel
  induction fuel with
  | zero =>
    intro first last b hb
    simp [summarizeFuel] at hb
  | succ f ih =>
    intro first last b hb
    by_cases hle : first ≤ last
    · simp only [summarizeFuel, hle, if_true, List.mem_cons] at hb
      rcases hb with hb | hb
      · subst hb
        exact nbitsFor_dvd first _
      · exact ih _ last b hb
    · simp [summarizeFuel, hle] at hb

/-- C1: for start <= end of one family the CIDR summarization returns an
ordered sequence of pairwise-disjoint blocks whose union is exactly the
closed interval, each block a power-of-two count aligned to its own start;
and the two concrete examples hold. -/
theorem C1_cidr_summarizer_correct (s e : Nat) (h : s ≤ e) :
    (∀ x, (∃ b ∈ summarize_address_range s e, b.1 ≤ x ∧ x < b.1 + 2 ^ b.2) ↔
      (s ≤ x ∧ x ≤ e))
    ∧ (summarize_address_range s e).Pairwise (fun b c => b.1 + 2 ^ b.2 ≤ c.1)
    ∧ (∀ b ∈ summarize_address_range s e, 2 ^ b.2 ∣ b.1)
    ∧ (summarize_address_range (ipv4Num 10 0 0 0) (ipv4Num 10 0 0 255)).map cidr4String
        = ["10.0.0.0/24"]
    ∧ (summarize_address_range (ipv4Num 10 0 0 1) (ipv4Num 10 0 0 4)).map cidr4String
        = ["10.0.0.1/32", "10.0.0.2/31", "10.0.0.4/32"] :=
  ⟨fun x => summarizeFuel_cover _ s e (le_refl _) x,
    summarizeFuel_pairwise _ s e,
    fun b hb => summarizeFuel_aligned _ s e b hb,
    by decide, by decide⟩

/-- Witness for C1 at start 10.0.0.1, end 10.0.0.4. -/
theorem C1_cidr_summarizer_correct_witness :
    ipv4Num 10 0 0 1 ≤ ipv4Num 10 0 0 4
    ∧ ((∀ x, (∃ b ∈ summarize_address_range (ipv4Num 10 0 0 1) (ipv4Num 10 0 0 4),
        b.1 ≤ x ∧ x < b.1 + 2 ^ b.2) ↔ (ipv4Num 10 0 0 1 ≤ x ∧ x ≤ ipv4Num 10 0 0 4))
      ∧ (summarize_address_range (ipv4Num 10 0 0 1) (ipv4Num 10 0 0 4)).Pairwise
          (fun b c => b.1 + 2 ^ b.2 ≤ c.1)
      ∧ (∀ b ∈ summarize_address_range (ipv4Num 10 0 0 1) (ipv4Num 10 0 0 4), 2 ^ b.2 ∣ b.1)
      ∧ (summarize_address_range (ipv4Num 10 0 0 0) (ipv4Num 10 0 0 255)).map cidr4String
          = ["10.0.0.0/24"]
      ∧ (summarize_address_range (ipv4Num 10 0 0 1) (ipv4Num 10 0 0 4)).map cidr4String
          = ["10.0.0.1/32", "10.0.0.2/31", "10.0.0.4/32"]) :=
  ⟨by decide, C1_cidr_summarizer_correct (ipv4Num 10 0 0 1) (ipv4Num 10 0 0 4) (by decide)⟩

/-! ### The resolver as a first-match scan (claim C2) -/

theorem find?_first_characterization {α : Type} (p : α → Bool) :
    ∀ (l : List α) (r : α), l.find? p = some r ↔
      ∃ i : Nat, l[i]? = some r ∧ p r = true ∧
        ∀ j : Nat, j < i → ∀ r', l[j]? = some r' → p r' = false := by
  intro l
  induction l with
  | nil =>
    intro r
    simp
  | cons a t ih =>
    intro r
    by_cases hp : p a
    · rw [List.find?_cons_of_pos _ hp]
      constructor
      · intro h
        refine ⟨0, ?_, ?_, ?_⟩
        · simpa using (Option.some.injEq .. ▸ h).symm ▸ rfl
        · cases h
          exact hp
        · intro j hj
          omega
      · rintro ⟨i, hi, hpr, hmin⟩
        cases i with
        | zero =>
          simp only [List.getElem?_cons_zero, Option.some.injEq] at hi
          rw [hi]
        | succ i' =>
          have := hmin 0 (Nat.succ_pos _) a (by simp)
          rw [hp] at this
          cases this
    · rw [List.find?_cons_of_neg _ hp]
      rw [ih r]
      constructor
      · rintro ⟨i, hi, hpr, hmin⟩
        refine ⟨i + 1, by simpa using hi, hpr, ?_⟩
        intro j hj r' hr'
        cases j with
        | zero =>
          simp only [List.getElem?_cons_zero, Option.some.injEq] at hr'
          subst hr'
          simpa using hp
        | succ j' =>
          exact hmin j' (by omega) r' (by simpa using hr')
      · rintro ⟨i, hi, hpr, hmin⟩
        cases i with
        | zero =>
          simp only [List.getElem?_cons_zero, Option.some.injEq] at hi
          subst hi
          rw [hpr] at hp
          cases hp rfl
        | succ i' =>
          refine ⟨i', by simpa using hi, hpr, ?_⟩
          intro j hj r' hr'
          exact hmin (j + 1) (by omega) r' (by simpa using hr')

theorem GeoipBatch.classify_eq_find (ipv4_data ipv6_data : List RangeRecord)
    (q : QueryInput) (hq : q.isMalformed = false) :
    GeoipBatch.classify ipv4_data ipv6_data q =
      match (famTable ipv4_data ipv6_data q).find? (fun r => containsQuery r q) with
      | some row => .ok row.country row.continent_name
          (summarize_address_range row.start_ip row.end_ip)
      | none => .noMatch := by
  cases q with
  | malformed s => simp [QueryInput.isMalformed] at hq
  | addr version value raw => rfl
  | cidr version network broadcast raw => rfl

/-- C2: for a well-formed query the resolver returns the first record in
load order of the matching family whose interval fully contains the query
(for a CIDR query: both network and broadcast address), with that record's
country and continent fields and the CIDR summarization of that record's
own interval; resolution yields an absent match exactly when no record of
the family contains the query; and the concrete example holds. -/
theorem C2_resolver_first_match (ipv4_data ipv6_data : List RangeRecord) (q : QueryInput)
    (hq : q.isMalformed = false) :
    (∀ c cont ci, GeoipBatch.classify ipv4_data ipv6_data q = .ok c cont ci →
      ∃ i : Nat, ∃ r : RangeRecord, (famTable ipv4_data ipv6_data q)[i]? = some r ∧
        containsQuery r q = true ∧
        (∀ j : Nat, j < i → ∀ r', (famTable ipv4_data ipv6_data q)[j]? = some r' →
          containsQuery r' q = false) ∧
        c = r.country ∧ cont = r.continent_name ∧
        ci = summarize_address_range r.start_ip r.end_ip)
    ∧ (GeoipBatch.classify ipv4_data ipv6_data q = .noMatch ↔
        ∀ r ∈ famTable ipv4_data ipv6_data q, containsQuery r q = false)
    ∧ GeoipBatch.classify [⟨ipv4Num 10 0 0 0, ipv4Num 10 0 0 255, "US", "NA"⟩] []
        (.addr 4 (ipv4Num 10 0 0 10) "10.0.0.10")
        = .ok "US" "NA" [(ipv4Num 10 0 0 0, 8)]
    ∧ cidr4Join [(ipv4Num 10 0 0 0, 8)] = "10.0.0.0/24" := by
  have hcl := GeoipBatch.classify_eq_find ipv4_data ipv6_data q hq
  refine ⟨?_, ?_, by decide, by decide⟩
  · intro c cont ci heq
    rw [hcl] at heq
    cases hfind : (famTable ipv4_data ipv6_data q).find? (fun r => containsQuery r q) with
    | none =>
      rw [hfind] at heq
      cases heq
    | some row =>
      rw [hfind] at heq
      obtain ⟨i, hi, hpr, hmin⟩ :=
        (find?_first_characterization (fun r => containsQuery r q)
          (famTable ipv4_data ipv6_data q) row).1 hfind
      cases heq
      exact ⟨i, row, hi, hpr, hmin, rfl, rfl, rfl⟩
  · rw [hcl]
    cases hfind : (famTable ipv4_data ipv6_data q).find? (fun r => containsQuery r q) with
    | none =>
      constructor
      · intro _ r hr
        have := List.find?_eq_none.1 hfind r hr
        simpa using this
      · intro _
        rfl
    | some row =>
      constructor
      · intro hcontra
        cases hcontra
      · intro hall
        have hmem : row ∈ famTable ipv4_data ipv6_data q := List.mem_of_find?_eq_some hfind
        have hp : containsQuery row q = true := by simpa using List.find?_some hfind
        rw [hall row hmem] at hp
        cases hp

/-- Witness for C2 at the example table and query. -/
theorem C2_resolver_first_match_witness :
    QueryInput.isMalformed (.addr 4 (ipv4Num 10 0 0 10) "10.0.0.10") = false
    ∧ ((∀ c cont ci, GeoipBatch.classify
          [⟨ipv4Num 10 0 0 0, ipv4Num 10 0 0 255, "US", "NA"⟩] []
          (.addr 4 (ipv4Num 10 0 0 10) "10.0.0.10") = .ok c cont ci →
        ∃ i : Nat, ∃ r : RangeRecord,
          (famTable [⟨ipv4Num 10 0 0 0, ipv4Num 10 0 0 255, "US", "NA"⟩] []
            (.addr 4 (ipv4Num 10 0 0 10) "10.0.0.10"))[i]? = some r ∧
          containsQuery r (.addr 4 (ipv4Num 10 0 0 10) "10.0.0.10") = true ∧
          (∀ j : Nat, j < i → ∀ r',
            (famTable [⟨ipv4Num 10 0 0 0, ipv4Num 10 0 0 255, "US", "NA"⟩] []
              (.addr 4 (ipv4Num 10 0 0 10) "10.0.0.10"))[j]? = some r' →
            containsQuery r' (.addr 4 (ipv4Num 10 0 0 10) "10.0.0.10") = false) ∧
          c = r.country ∧ cont = r.continent_name ∧
          ci = summarize_address_range r.start_ip r.end_ip)
      ∧ (GeoipBatch.classify [⟨ipv4Num 10 0 0 0, ipv4Num 10 0 0 255, "US", "NA"⟩] []
          (.addr 4 (ipv4Num 10 0 0 10) "10.0.0.10") = .noMatch ↔
          ∀ r ∈ famTable [⟨ipv4Num 10 0 0 0, ipv4Num 10 0 0 255, "US", "NA"⟩] []
            (.addr 4 (ipv4Num 10 0 0 10) "10.0.0.10"),
            containsQuery r (.addr 4 (ipv4Num 10 0 0 10) "10.0.0.10") = false)
      ∧ GeoipBatch.classify [⟨ipv4Num 10 0 0 0, ipv4Num 10 0 0 255, "US", "NA"⟩] []
          (.addr 4 (ipv4Num 10 0 0 10) "10.0.0.10")
          = .ok "US" "NA" [(ipv4Num 10 0 0 0, 8)]
      ∧ cidr4Join [(ipv4Num 10 0 0 0, 8)] = "10.0.0.0/24") :=
  ⟨by decide, C2_resolver_first_match
    [⟨ipv4Num 10 0 0 0, ipv4Num 10 0 0 255, "US", "NA"⟩] []
    (.addr 4 (ipv4Num 10 0 0 10) "10.0.0.10") (by decide)⟩

/-! ### Agreement of the two batch resolvers on slash-free input (claim C10) -/

theorem classify_agree (ipv4_data ipv6_data : List RangeRecord) (q : QueryInput)
    (h : q.isCidr = false) :
    IpinfoBatch.classify ipv4_data ipv6_data q = GeoipBatch.classify ipv4_data ipv6_data q := by
  cases q with
  | malformed s => rfl
  | addr version value raw => rfl
  | cidr version network broadcast raw => simp [QueryInput.isCidr] at h

theorem fcccGo_components_eq (cls1 cls2 : QueryInput → ItemResult) (nm1 nm2 : Bool)
    (s : Nat) (t : Bool) :
    ∀ (series : List QueryInput) (i : Nat), (∀ q ∈ series, cls1 q = cls2 q) →
      (BatchCore.fcccGo cls1 nm1 s t i series).countries
          = (BatchCore.fcccGo cls2 nm2 s t i series).countries ∧
        (BatchCore.fcccGo cls1 nm1 s t i series).continents
          = (BatchCore.fcccGo cls2 nm2 s t i series).continents ∧
        (BatchCore.fcccGo cls1 nm1 s t i series).cidrs
          = (BatchCore.fcccGo cls2 nm2 s t i series).cidrs := by
  intro series
  induction series with
  | nil =>
    intro i h
    exact ⟨rfl, rfl, rfl⟩
  | cons q rest ih =>
    intro i h
    have hq := h q (List.mem_cons_self q rest)
    have hr := ih (i + 1) (fun q' hq' => h q' (List.mem_cons_of_mem q hq'))
    simp only [BatchCore.fcccGo, hq]
    cases hcls : cls2 q <;> simp [hr.1, hr.2.1, hr.2.2]

/-- C10: on an input series without any solidus-containing item string the
two scripts' resolvers return identical countries, continents and cidrs
lists (their error lists may differ).  A solidus-free string is never fed
to ip_network, so every such item is either an address or malformed, which
the hypothesis expresses as not being a CIDR item. -/
theorem C10_resolvers_agree (ipv4_data ipv6_data : List RangeRecord)
    (start_index : Nat) (is_text_file : Bool) (series : List QueryInput)
    (h : ∀ q ∈ series, q.isCidr = false) :
    (GeoipBatch.find_country_continent_cidr ipv4_data ipv6_data
        start_index is_text_file series).countries
      = (IpinfoBatch.find_country_continent_cidr ipv4_data ipv6_data
        start_index is_text_file series).countries
    ∧ (GeoipBatch.find_country_continent_cidr ipv4_data ipv6_data
        start_index is_text_file series).continents
      = (IpinfoBatch.find_country_continent_cidr ipv4_data ipv6_data
        start_index is_text_file series).continents
    ∧ (GeoipBatch.find_country_continent_cidr ipv4_data ipv6_data
        start_index is_text_file series).cidrs
      = (IpinfoBatch.find_country_continent_cidr ipv4_data ipv6_data
        start_index is_text_file series).cidrs := by
  have := fcccGo_components_eq (GeoipBatch.classify ipv4_data ipv6_data)
    (IpinfoBatch.classify ipv4_data ipv6_data) true false start_index is_text_file series 0
    (fun q hq => (classify_agree ipv4_data ipv6_data q (h q hq)).symm)
  exact this

/-- Witness for C10 on a two-item series (one well-formed address, one
malformed string) against a one-record table. -/
theorem C10_resolvers_agree_witness :
    (∀ q ∈ [QueryInput.addr 4 (ipv4Num 10 0 0 10) "10.0.0.10", QueryInput.malformed "oops"],
      q.isCidr = false)
    ∧ ((GeoipBatch.find_country_continent_cidr
          [⟨ipv4Num 10 0 0 0, ipv4Num 10 0 0 255, "US", "NA"⟩] [] 0 true
          [QueryInput.addr 4 (ipv4Num 10 0 0 10) "10.0.0.10", QueryInput.malformed "oops"]).countries
        = (IpinfoBatch.find_country_continent_cidr
          [⟨ipv4Num 10 0 0 0, ipv4Num 10 0 0 255, "US", "NA"⟩] [] 0 true
          [QueryInput.addr 4 (ipv4Num 10 0 0 10) "10.0.0.10", QueryInput.malformed "oops"]).countries
      ∧ (GeoipBatch.find_country_continent_cidr
          [⟨ipv4Num 10 0 0 0, ipv4Num 10 0 0 255, "US", "NA"⟩] [] 0 true
          [QueryInput.addr 4 (ipv4Num 10 0 0 10) "10.0.0.10", QueryInput.malformed "oops"]).continents
        = (IpinfoBatch.find_country_continent_cidr
          [⟨ipv4Num 10 0 0 0, ipv4Num 10 0 0 255, "US", "NA"⟩] [] 0 true
          [QueryInput.addr 4 (ipv4Num 10 0 0 10) "10.0.0.10", QueryInput.malformed "oops"]).continents
      ∧ (GeoipBatch.find_country_continent_cidr
          [⟨ipv4Num 10 0 0 0, ipv4Num 10 0 0 255, "US", "NA"⟩] [] 0 true
          [QueryInput.addr 4 (ipv4Num 10 0 0 10) "10.0.0.10", QueryInput.malformed "oops"]).cidrs
        = (IpinfoBatch.find_country_continent_cidr
          [⟨ipv4Num 10 0 0 0, ipv4Num 10 0 0 255, "US", "NA"⟩] [] 0 true
          [QueryInput.addr 4 (ipv4Num 10 0 0 10) "10.0.0.10", QueryInput.malformed "oops"]).cidrs) :=
  ⟨by decide, C10_resolvers_agree
    [⟨ipv4Num 10 0 0 0, ipv4Num 10 0 0 255, "US", "NA"⟩] [] 0 true
    [QueryInput.addr 4 (ipv4Num 10 0 0 10) "10.0.0.10", QueryInput.malformed "oops"]
    (by decide)⟩

/-! ### Pipeline reassembly lemmas (claims C3, C6, C8) -/

theorem perm_flatten {α : Type} {l₁ l₂ : List (List α)} (h : l₁.Perm l₂) :
    l₁.flatten.Perm l₂.flatten := by
  induction h with
  | nil => exact List.Perm.refl _
  | cons x _ ih => simpa using ih.append_left x
  | swap x y l =>
    simp only [List.flatten_cons]
    rw [← List.append_assoc, ← List.append_assoc]
    exact List.perm_append_comm.append_right _
  | trans _ _ ih1 ih2 => exact ih1.trans ih2

theorem fcccGo_spec (cls : QueryInput → ItemResult) (nm : Bool) (s : Nat) (t : Bool) :
    ∀ (series : List QueryInput) (i : Nat),
      BatchCore.buildRows series
          (BatchCore.fcccGo cls nm s t i series).countries
          (BatchCore.fcccGo cls nm s t i series).continents
          (BatchCore.fcccGo cls nm s t i series).cidrs
        = series.map (BatchCore.itemRow cls)
      ∧ (BatchCore.fcccGo cls nm s t i series).errors
        = BatchCore.seriesErrors cls nm t (s + i) series := by
  intro series
  induction series with
  | nil =>
    intro i
    exact ⟨rfl, rfl⟩
  | cons q rest ih =>
    intro i
    obtain ⟨ih1, ih2⟩ := ih (i + 1)
    simp only [BatchCore.fcccGo]
    cases hcls : cls q with
    | ok c cont ci =>
      constructor
      · simp only [BatchCore.buildRows, List.map_cons, BatchCore.itemRow, hcls, ih1]
      · simp only [BatchCore.seriesErrors, BatchCore.itemErrors, hcls, ih2,
          List.nil_append, Nat.add_succ]
    | noMatch =>
      constructor
      · simp only [BatchCore.buildRows, List.map_cons, BatchCore.itemRow, hcls, ih1]
      · cases nm <;>
          simp only [BatchCore.seriesErrors, BatchCore.itemErrors, hcls, ih2,
            Nat.add_succ, Bool.false_eq_true, eq_self_iff_true, if_false, if_true,
            List.nil_append, List.singleton_append]
    | parseError s' =>
      constructor
      · simp only [BatchCore.buildRows, List.map_cons, BatchCore.itemRow, hcls, ih1]
      · simp only [BatchCore.seriesErrors, BatchCore.itemErrors, hcls, ih2,
          List.singleton_append, Nat.add_succ]

theorem process_chunk_fst (cls : QueryInput → ItemResult) (nm : Bool) (t : Bool)
    (s : Nat) (chunk : List QueryInput) :
    (BatchCore.process_chunk cls nm t s chunk).1
      = (List.range' s chunk.length).zip (chunk.map (BatchCore.itemRow cls)) := by
  simp only [BatchCore.process_chunk, BatchCore.find_country_continent_cidr]
  rw [(fcccGo_spec cls nm s t chunk 0).1]

theorem process_chunk_snd (cls : QueryInput → ItemResult) (nm : Bool) (t : Bool)
    (s : Nat) (chunk : List QueryInput) :
    (BatchCore.process_chunk cls nm t s chunk).2
      = BatchCore.seriesErrors cls nm t s chunk := by
  simp only [BatchCore.process_chunk, BatchCore.find_country_continent_cidr]
  exact (fcccGo_spec cls nm s t chunk 0).2

theorem zip_range'_split {α β : Type} (s m : Nat) (l : List α) (f : α → β)
    (hm : m ≤ l.length) :
    (List.range' s l.length).zip (l.map f)
      = (List.range' s m).zip ((l.take m).map f)
        ++ (List.range' (s + m) (l.length - m)).zip ((l.drop m).map f) := by
  have htake : (l.take m).length = m := by
    rw [List.length_take]
    omega
  have hlen : l.length = m + (l.length - m) := by omega
  conv_lhs =>
    rw [hlen, Nat.add_comm m (l.length - m), ← List.range'_append s m (l.length - m) 1]
  conv_lhs => rw [← List.take_append_drop m l]
  rw [List.map_append,
    List.zip_append (by rw [List.length_range', List.length_map, htake])]
  simp [htake]

theorem seriesErrors_append (cls : QueryInput → ItemResult) (nm : Bool) (t : Bool) :
    ∀ (xs ys : List QueryInput) (p : Nat),
      BatchCore.seriesErrors cls nm t p (xs ++ ys)
        = BatchCore.seriesErrors cls nm t p xs
          ++ BatchCore.seriesErrors cls nm t (p + xs.length) ys := by
  intro xs
  induction xs with
  | nil =>
    intro ys p
    simp [BatchCore.seriesErrors]
  | cons q rest ih =>
    intro ys p
    have h1 : (q :: rest) ++ ys = q :: (rest ++ ys) := rfl
    rw [h1]
    simp only [BatchCore.seriesErrors]
    rw [ih ys (p + 1), ← List.append_assoc]
    simp only [List.length_cons]
    have h2 : p + 1 + rest.length = p + (rest.length + 1) := by omega
    rw [h2]

theorem chunkResultsGo_rows (cls : QueryInput → ItemResult) (nm : Bool) (t : Bool)
    (k : Nat) (hk : 0 < k) :
    ∀ (fuel s : Nat) (rows : List QueryInput), rows.length ≤ fuel →
      ((BatchCore.chunkResultsGo cls nm t k fuel s rows).map Prod.fst).flatten
        = (List.range' s rows.length).zip (rows.map (BatchCore.itemRow cls)) := by
  intro fuel
  induction fuel with
  | zero =>
    intro s rows h
    have : rows = [] := List.eq_nil_of_length_eq_zero (by omega)
    subst this
    simp [BatchCore.chunkResultsGo]
  | succ f ih =>
    intro s rows h
    cases rows with
    | nil => simp [BatchCore.chunkResultsGo]
    | cons q rest =>
      simp only [BatchCore.chunkResultsGo, List.map_cons, List.flatten_cons,
        process_chunk_fst]
      by_cases hkl : k ≤ (q :: rest).length
      · have hdrop : ((q :: rest).drop k).length = (q :: rest).length - k := by
          simp [List.length_drop]
        have hfuel : ((q :: rest).drop k).length ≤ f := by
          simp only [List.length_drop, List.length_cons]
          simp only [List.length_cons] at h
          omega
        have htake : ((q :: rest).take k).length = k := by
          rw [List.length_take]
          omega
        conv_rhs => rw [← List.map_cons]
        rw [zip_range'_split s k (q :: rest) (BatchCore.itemRow cls) hkl]
        rw [htake, ih (s + k) ((q :: rest).drop k) hfuel, hdrop]
      · have hkl' : (q :: rest).length ≤ k := by omega
        rw [List.take_of_length_le hkl', List.drop_eq_nil_of_le hkl']
        simp [BatchCore.chunkResultsGo]

theorem chunkResultsGo_errors (cls : QueryInput → ItemResult) (nm : Bool) (t : Bool)
    (k : Nat) (hk : 0 < k) :
    ∀ (fuel s : Nat) (rows : List QueryInput), rows.length ≤ fuel →
      ((BatchCore.chunkResultsGo cls nm t k fuel s rows).map Prod.snd).flatten
        = BatchCore.seriesErrors cls nm t s rows := by
  intro fuel
  induction fuel with
  | zero =>
    intro s rows h
    have : rows = [] := List.eq_nil_of_length_eq_zero (by omega)
    subst this
    simp [BatchCore.chunkResultsGo, BatchCore.seriesErrors]
  | succ f ih =>
    intro s rows h
    cases rows with
    | nil => simp [BatchCore.chunkResultsGo, BatchCore.seriesErrors]
    | cons q rest =>
      simp only [BatchCore.chunkResultsGo, List.map_cons, List.flatten_cons,
        process_chunk_snd]
      by_cases hkl : k ≤ (q :: rest).length
      · have hfuel : ((q :: rest).drop k).length ≤ f := by
          simp only [List.length_drop, List.length_cons]
          simp only [List.length_cons] at h
          omega
        rw [ih (s + k) ((q :: rest).drop k) hfuel]
        conv_rhs => rw [← List.take_append_drop k (q :: rest)]
        rw [seriesErrors_append]
        have htake : ((q :: rest).take k).length = k := by
          rw [List.length_take]
          omega
        rw [htake]
      · have hkl' : (q :: rest).length ≤ k := by omega
        rw [List.take_of_length_le hkl', List.drop_eq_nil_of_le hkl']
        simp [BatchCore.chunkResultsGo, BatchCore.seriesErrors]

theorem pipelineRows_keys (cls : QueryInput → ItemResult) (rows : List QueryInput) :
    (BatchCore.pipelineRows cls rows).map Prod.fst = List.range' 0 rows.length := by
  unfold BatchCore.pipelineRows
  exact List.map_fst_zip _ _ (by simp)

theorem pipelineRows_pairwise_lt (cls : QueryInput → ItemResult) (rows : List QueryInput) :
    (BatchCore.pipelineRows cls rows).Pairwise (fun a b => a.1 < b.1) := by
  have h := List.pairwise_lt_range' 0 rows.length
  rw [← pipelineRows_keys cls rows] at h
  exact List.pairwise_map.1 h

theorem sorted_perm_eq_pipelineRows (cls : QueryInput → ItemResult)
    (rows : List QueryInput) (final : List (Nat × RowOut))
    (hperm : final.Perm (BatchCore.pipelineRows cls rows))
    (hsort : final.Pairwise (fun a b => a.1 ≤ b.1)) :
    final = BatchCore.pipelineRows cls rows := by
  have hkeysperm : (final.map Prod.fst).Perm (List.range' 0 rows.length) := by
    rw [← pipelineRows_keys cls rows]
    exact hperm.map Prod.fst
  have hnodup : (final.map Prod.fst).Nodup :=
    hkeysperm.nodup_iff.2 (List.nodup_range' 0 rows.length)
  have hneq : final.Pairwise (fun a b => a.1 ≠ b.1) := List.pairwise_map.1 hnodup
  have hlt : final.Pairwise (fun a b => a.1 < b.1) :=
    (hsort.and hneq).imp (fun hab => lt_of_le_of_ne hab.1 hab.2)
  haveI : IsAntisymm (Nat × RowOut) (fun a b => a.1 < b.1) :=
    ⟨fun a b h1 h2 => absurd (lt_trans h1 h2) (lt_irrefl _)⟩
  exact List.eq_of_perm_of_sorted hperm hlt (pipelineRows_pairwise_lt cls rows)

theorem pipelineRows_mem (cls : QueryInput → ItemResult) (rows : List QueryInput)
    (p : Nat) (r : RowOut) :
    (p, r) ∈ BatchCore.pipelineRows cls rows ↔
      ∃ q, rows[p]? = some q ∧ r = BatchCore.itemRow cls q := by
  unfold BatchCore.pipelineRows
  rw [List.mem_iff_getElem?]
  constructor
  · rintro ⟨i, hi⟩
    rw [List.getElem?_zip_eq_some] at hi
    obtain ⟨h1, h2⟩ := hi
    have hip : i = p := by
      by_cases hilt : i < rows.length
      · have hr := List.getElem?_range' 0 1 hilt
        rw [hr] at h1
        simp only [Option.some.injEq] at h1
        omega
      · rw [List.getElem?_eq_none (by simpa using hilt)] at h1
        cases h1
    subst hip
    rw [List.getElem?_map] at h2
    cases hq : rows[i]? with
    | none => rw [hq] at h2; cases h2
    | some q =>
      rw [hq] at h2
      exact ⟨q, rfl, by simpa using h2.symm⟩
  · rintro ⟨q, hq, hr⟩
    refine ⟨p, ?_⟩
    rw [List.getElem?_zip_eq_some]
    have hplt : p < rows.length := by
      by_contra hge
      rw [List.getElem?_eq_none (by omega)] at hq
      cases hq
    constructor
    · have := List.getElem?_range' 0 1 hplt
      simpa using this
    · rw [List.getElem?_map, hq, hr]
      rfl

/-- C3: for every input list, every positive chunk size, every order in
which chunks complete (any permutation of the chunk results at the fan-in
join) and every ascending reordering produced by the sort on
OriginalIndex, the pipeline's final row sequence is in strictly increasing
original-position order, both before and after the dropna filter. -/
theorem C3_pipeline_order (ipv4_data ipv6_data : List RangeRecord) (is_text_file : Bool)
    (chunk_size : Nat) (rows : List QueryInput)
    (completed : List (List (Nat × RowOut) × List FcccError))
    (final : List (Nat × RowOut))
    (hk : 0 < chunk_size)
    (hcompleted : completed.Perm
      (GeoipBatch.chunkResults ipv4_data ipv6_data is_text_file chunk_size rows))
    (hconcat : final.Perm ((completed.map Prod.fst).flatten))
    (hsorted : final.Pairwise (fun a b => a.1 ≤ b.1)) :
    (final.map Prod.fst).Pairwise (· < ·)
    ∧ ((BatchCore.dropnaCountry final).map Prod.fst).Pairwise (· < ·) := by
  have hrows : ((GeoipBatch.chunkResults ipv4_data ipv6_data is_text_file chunk_size
      rows).map Prod.fst).flatten
      = BatchCore.pipelineRows (GeoipBatch.classify ipv4_data ipv6_data) rows :=
    chunkResultsGo_rows (GeoipBatch.classify ipv4_data ipv6_data) true is_text_file
      chunk_size hk rows.length 0 rows (le_refl _)
  have hperm : final.Perm
      (BatchCore.pipelineRows (GeoipBatch.classify ipv4_data ipv6_data) rows) := by
    refine hconcat.trans ?_
    rw [← hrows]
    exact perm_flatten (hcompleted.map Prod.fst)
  have hfinal := sorted_perm_eq_pipelineRows _ rows final hperm hsorted
  have hlt : final.Pairwise (fun a b => a.1 < b.1) := by
    rw [hfinal]
    exact pipelineRows_pairwise_lt _ rows
  constructor
  · exact List.pairwise_map.2 hlt
  · exact List.pairwise_map.2 (List.Pairwise.sublist (List.filter_sublist final) hlt)

/-- Witness for C3 on a two-item input split into two one-item chunks,
with the identity completion order and the already-ascending concatenation. -/
theorem C3_pipeline_order_witness :
    ((0 : Nat) < 1
    ∧ (GeoipBatch.chunkResults [] [] true 1
        [QueryInput.malformed "x", QueryInput.addr 4 5 "0.0.0.5"]).Perm
        (GeoipBatch.chunkResults [] [] true 1
          [QueryInput.malformed "x", QueryInput.addr 4 5 "0.0.0.5"])
    ∧ (((GeoipBatch.chunkResults [] [] true 1
        [QueryInput.malformed "x", QueryInput.addr 4 5 "0.0.0.5"]).map Prod.fst).flatten).Perm
        (((GeoipBatch.chunkResults [] [] true 1
          [QueryInput.malformed "x", QueryInput.addr 4 5 "0.0.0.5"]).map Prod.fst).flatten)
    ∧ (((GeoipBatch.chunkResults [] [] true 1
        [QueryInput.malformed "x", QueryInput.addr 4 5 "0.0.0.5"]).map Prod.fst).flatten).Pairwise
        (fun a b => a.1 ≤ b.1))
    ∧ (((((GeoipBatch.chunkResults [] [] true 1
        [QueryInput.malformed "x", QueryInput.addr 4 5 "0.0.0.5"]).map Prod.fst).flatten).map
          Prod.fst).Pairwise (· < ·)
      ∧ ((BatchCore.dropnaCountry (((GeoipBatch.chunkResults [] [] true 1
          [QueryInput.malformed "x", QueryInput.addr 4 5 "0.0.0.5"]).map Prod.fst).flatten)).map
            Prod.fst).Pairwise (· < ·)) :=
  ⟨⟨by decide, by decide, by decide, by decide⟩,
    C3_pipeline_order [] [] true 1 [QueryInput.malformed "x", QueryInput.addr 4 5 "0.0.0.5"]
      (GeoipBatch.chunkResults [] [] true 1
        [QueryInput.malformed "x", QueryInput.addr 4 5 "0.0.0.5"])
      (((GeoipBatch.chunkResults [] [] true 1
        [QueryInput.malformed "x", QueryInput.addr 4 5 "0.0.0.5"]).map Prod.fst).flatten)
      (by decide) (by decide) (by decide) (by decide)⟩

/-! ### Error accounting for malformed items (claim C6) -/

theorem seriesErrors_skipped_rowNumber (cls : QueryInput → ItemResult) (nm : Bool) (t : Bool) :
    ∀ (series : List QueryInput) (base : Nat) (s : String) (n : Nat),
      FcccError.skipped s n ∈ BatchCore.seriesErrors cls nm t base series →
      base + (if t then 1 else 2) ≤ n := by
  intro series
  induction series with
  | nil =>
    intro base s n h
    simp [BatchCore.seriesErrors] at h
  | cons q rest ih =>
    intro base s n h
    simp only [BatchCore.seriesErrors, List.mem_append] at h
    rcases h with h | h
    · unfold BatchCore.itemErrors at h
      cases hcls : cls q <;> rw [hcls] at h
      · simp at h
      · cases nm <;> simp at h
      · simp only [List.mem_singleton, FcccError.skipped.injEq] at h
        omega
    · have := ih (base + 1) s n h
      omega

theorem seriesErrors_count_skipped (cls : QueryInput → ItemResult) (nm : Bool) (t : Bool)
    (hcls : ∀ s, cls (QueryInput.malformed s) = ItemResult.parseError s) :
    ∀ (series : List QueryInput) (base p : Nat) (s : String),
      series[p]? = some (QueryInput.malformed s) →
      (BatchCore.seriesErrors cls nm t base series).count
        (FcccError.skipped s (base + p + (if t then 1 else 2))) = 1 := by
  intro series
  induction series with
  | nil =>
    intro base p s h
    simp at h
  | cons q rest ih =>
    intro base p s h
    simp only [BatchCore.seriesErrors, List.count_append]
    cases p with
    | zero =>
      simp only [List.getElem?_cons_zero, Option.some.injEq] at h
      subst h
      have hhead : BatchCore.itemErrors cls nm t base (QueryInput.malformed s)
          = [FcccError.skipped s (base + (if t then 1 else 2))] := by
        simp [BatchCore.itemErrors, hcls, QueryInput.raw]
      rw [hhead]
      have h0 : base + 0 + (if t then 1 else 2) = base + (if t then 1 else 2) := by omega
      rw [h0]
      have htail : (BatchCore.seriesErrors cls nm t (base + 1) rest).count
          (FcccError.skipped s (base + (if t then 1 else 2))) = 0 := by
        rw [List.count_eq_zero]
        intro hmem
        have hge := seriesErrors_skipped_rowNumber cls nm t rest (base + 1) s _ hmem
        omega
      rw [htail]
      simp [List.count_cons]
    | succ p' =>
      simp only [List.getElem?_cons_succ] at h
      have htail := ih (base + 1) p' s h
      have halign : base + 1 + p' + (if t then 1 else 2)
          = base + (p' + 1) + (if t then 1 else 2) := by omega
      rw [halign] at htail
      have hhead : (BatchCore.itemErrors cls nm t base q).count
          (FcccError.skipped s (base + (p' + 1) + (if t then 1 else 2))) = 0 := by
        rw [List.count_eq_zero]
        intro hmem
        unfold BatchCore.itemErrors at hmem
        cases hq : cls q <;> rw [hq] at hmem
        · simp at hmem
        · cases nm <;> simp at hmem
        · simp only [List.mem_singleton, FcccError.skipped.injEq] at hmem
          omega
      rw [hhead, htail]

/-- C6: in any run of the geoip pipeline (any positive chunk size, any
completion order, any ascending sort result), an input item whose string
fails parsing contributes exactly one skipped-error entry carrying its
reported row number (its position plus the one-based/header offset), is
absent from the dropna-filtered success sequence, and every other input
item still contributes its own row to the sorted output. -/
theorem C6_malformed_item_accounting (ipv4_data ipv6_data : List RangeRecord)
    (is_text_file : Bool) (chunk_size : Nat) (rows : List QueryInput)
    (completed : List (List (Nat × RowOut) × List FcccError))
    (final : List (Nat × RowOut))
    (hk : 0 < chunk_size)
    (hcompleted : completed.Perm
      (GeoipBatch.chunkResults ipv4_data ipv6_data is_text_file chunk_size rows))
    (hconcat : final.Perm ((completed.map Prod.fst).flatten))
    (hsorted : final.Pairwise (fun a b => a.1 ≤ b.1))
    (p : Nat) (s : String) (hitem : rows[p]? = some (QueryInput.malformed s)) :
    ((completed.map Prod.snd).flatten).count
        (FcccError.skipped s (p + (if is_text_file then 1 else 2))) = 1
    ∧ (∀ r : RowOut, (p, r) ∉ BatchCore.dropnaCountry final)
    ∧ (∀ p' q', p' ≠ p → rows[p']? = some q' →
        (p', BatchCore.itemRow (GeoipBatch.classify ipv4_data ipv6_data) q') ∈ final) := by
  have herr : ((GeoipBatch.chunkResults ipv4_data ipv6_data is_text_file chunk_size
      rows).map Prod.snd).flatten
      = BatchCore.seriesErrors (GeoipBatch.classify ipv4_data ipv6_data) true
          is_text_file 0 rows :=
    chunkResultsGo_errors (GeoipBatch.classify ipv4_data ipv6_data) true is_text_file
      chunk_size hk rows.length 0 rows (le_refl _)
  have hallperm : ((completed.map Prod.snd).flatten).Perm
      (BatchCore.seriesErrors (GeoipBatch.classify ipv4_data ipv6_data) true
        is_text_file 0 rows) := by
    rw [← herr]
    exact perm_flatten (hcompleted.map Prod.snd)
  have hrows : ((GeoipBatch.chunkResults ipv4_data ipv6_data is_text_file chunk_size
      rows).map Prod.fst).flatten
      = BatchCore.pipelineRows (GeoipBatch.classify ipv4_data ipv6_data) rows :=
    chunkResultsGo_rows (GeoipBatch.classify ipv4_data ipv6_data) true is_text_file
      chunk_size hk rows.length 0 rows (le_refl _)
  have hperm : final.Perm
      (BatchCore.pipelineRows (GeoipBatch.classify ipv4_data ipv6_data) rows) := by
    refine hconcat.trans ?_
    rw [← hrows]
    exact perm_flatten (hcompleted.map Prod.fst)
  have hfinal := sorted_perm_eq_pipelineRows _ rows final hperm hsorted
  refine ⟨?_, ?_, ?_⟩
  · rw [hallperm.count_eq]
    have := seriesErrors_count_skipped (GeoipBatch.classify ipv4_data ipv6_data) true
      is_text_file (fun _ => rfl) rows 0 p s hitem
    simpa using this
  · intro r hr
    rw [hfinal] at hr
    unfold BatchCore.dropnaCountry at hr
    have hmem := List.mem_of_mem_filter hr
    have hpred := List.of_mem_filter hr
    obtain ⟨q, hq, hrq⟩ := (pipelineRows_mem _ rows p r).1 hmem
    rw [hitem] at hq
    cases hq
    subst hrq
    simp [BatchCore.itemRow, GeoipBatch.classify] at hpred
  · intro p' q' _ hq'
    rw [hfinal]
    exact (pipelineRows_mem _ rows p' _).2 ⟨q', hq', rfl⟩

/-- Witness for C6: one malformed and one well-formed item, chunk size one,
identity completion order, ascending concatenation. -/
theorem C6_malformed_item_accounting_witness :
    ((0 : Nat) < 1
    ∧ (GeoipBatch.chunkResults [] [] true 1
        [QueryInput.malformed "bad", QueryInput.addr 4 5 "0.0.0.5"]).Perm
        (GeoipBatch.chunkResults [] [] true 1
          [QueryInput.malformed "bad", QueryInput.addr 4 5 "0.0.0.5"])
    ∧ (((GeoipBatch.chunkResults [] [] true 1
        [QueryInput.malformed "bad", QueryInput.addr 4 5 "0.0.0.5"]).map Prod.fst).flatten).Perm
        (((GeoipBatch.chunkResults [] [] true 1
          [QueryInput.malformed "bad", QueryInput.addr 4 5 "0.0.0.5"]).map Prod.fst).flatten)
    ∧ (((GeoipBatch.chunkResults [] [] true 1
        [QueryInput.malformed "bad", QueryInput.addr 4 5 "0.0.0.5"]).map Prod.fst).flatten).Pairwise
        (fun a b => a.1 ≤ b.1)
    ∧ ([QueryInput.malformed "bad", QueryInput.addr 4 5 "0.0.0.5"][0]?
        = some (QueryInput.malformed "bad")))
    ∧ ((((GeoipBatch.chunkResults [] [] true 1
          [QueryInput.malformed "bad", QueryInput.addr 4 5 "0.0.0.5"]).map Prod.snd).flatten).count
          (FcccError.skipped "bad" (0 + (if true then 1 else 2))) = 1
      ∧ (∀ r : RowOut, (0, r) ∉ BatchCore.dropnaCountry
          (((GeoipBatch.chunkResults [] [] true 1
            [QueryInput.malformed "bad", QueryInput.addr 4 5 "0.0.0.5"]).map Prod.fst).flatten))
      ∧ (∀ p' q', p' ≠ 0 →
          [QueryInput.malformed "bad", QueryInput.addr 4 5 "0.0.0.5"][p']? = some q' →
          (p', BatchCore.itemRow (GeoipBatch.classify [] []) q')
            ∈ ((GeoipBatch.chunkResults [] [] true 1
              [QueryInput.malformed "bad", QueryInput.addr 4 5 "0.0.0.5"]).map Prod.fst).flatten)) :=
  ⟨⟨by decide, by decide, by decide, by decide, by decide⟩,
    C6_malformed_item_accounting [] [] true 1
      [QueryInput.malformed "bad", QueryInput.addr 4 5 "0.0.0.5"]
      (GeoipBatch.chunkResults [] [] true 1
        [QueryInput.malformed "bad", QueryInput.addr 4 5 "0.0.0.5"])
      (((GeoipBatch.chunkResults [] [] true 1
        [QueryInput.malformed "bad", QueryInput.addr 4 5 "0.0.0.5"]).map Prod.fst).flatten)
      (by decide) (by decide) (by decide) (by decide) 0 "bad" (by decide)⟩

/-! ### What the final output keeps after dropna (claim C8) -/

/-- C8 counterexample: a single well-formed query that matches no range
(192.168.0.1 against a table holding only 10.0.0.0-10.0.0.255) produces an
empty final output in the geoip pipeline: dropna(subset=['Country'])
removes the no-match row even though the item had no parsing error. -/
theorem C8_counterexample :
    QueryInput.isMalformed (QueryInput.addr 4 (ipv4Num 192 168 0 1) "192.168.0.1") = false
    ∧ BatchCore.dropnaCountry
        (((GeoipBatch.chunkResults [⟨ipv4Num 10 0 0 0, ipv4Num 10 0 0 255, "US", "NA"⟩] []
          true 1 [QueryInput.addr 4 (ipv4Num 192 168 0 1) "192.168.0.1"]).map
            Prod.fst).flatten)
        = [] :=
  ⟨by decide, by decide⟩

/-- C8 as amended: in any run of the geoip pipeline the dropna-filtered
final output equals the position-ordered canonical rows restricted to
items whose Country cell is set, so an input item appears in the final
output exactly when it matched a range (parse errors and well-formed
no-match items are both dropped); the ipinfo pipeline, which has no dropna
step, ends with a row for every input item. -/
theorem C8_output_after_dropna (ipv4_data ipv6_data : List RangeRecord)
    (is_text_file : Bool) (chunk_size : Nat) (rows : List QueryInput)
    (completed : List (List (Nat × RowOut) × List FcccError))
    (final : List (Nat × RowOut))
    (hk : 0 < chunk_size)
    (hcompleted : completed.Perm
      (GeoipBatch.chunkResults ipv4_data ipv6_data is_text_file chunk_size rows))
    (hconcat : final.Perm ((completed.map Prod.fst).flatten))
    (hsorted : final.Pairwise (fun a b => a.1 ≤ b.1)) :
    BatchCore.dropnaCountry final
      = (BatchCore.pipelineRows (GeoipBatch.classify ipv4_data ipv6_data) rows).filter
          (fun r => r.2.country.isSome)
    ∧ (∀ p q, rows[p]? = some q →
        ((p, BatchCore.itemRow (GeoipBatch.classify ipv4_data ipv6_data) q)
            ∈ BatchCore.dropnaCountry final
          ↔ (BatchCore.itemRow (GeoipBatch.classify ipv4_data ipv6_data) q).country.isSome
              = true))
    ∧ (∀ (completed' : List (List (Nat × RowOut) × List FcccError))
        (final' : List (Nat × RowOut)),
        completed'.Perm
          (IpinfoBatch.chunkResults ipv4_data ipv6_data is_text_file chunk_size rows) →
        final'.Perm ((completed'.map Prod.fst).flatten) →
        final'.Pairwise (fun a b => a.1 ≤ b.1) →
        ∀ p q, rows[p]? = some q →
          (p, BatchCore.itemRow (IpinfoBatch.classify ipv4_data ipv6_data) q) ∈ final') := by
  have hrows : ((GeoipBatch.chunkResults ipv4_data ipv6_data is_text_file chunk_size
      rows).map Prod.fst).flatten
      = BatchCore.pipelineRows (GeoipBatch.classify ipv4_data ipv6_data) rows :=
    chunkResultsGo_rows (GeoipBatch.classify ipv4_data ipv6_data) true is_text_file
      chunk_size hk rows.length 0 rows (le_refl _)
  have hperm : final.Perm
      (BatchCore.pipelineRows (GeoipBatch.classify ipv4_data ipv6_data) rows) := by
    refine hconcat.trans ?_
    rw [← hrows]
    exact perm_flatten (hcompleted.map Prod.fst)
  have hfinal := sorted_perm_eq_pipelineRows _ rows final hperm hsorted
  refine ⟨by rw [hfinal]; rfl, ?_, ?_⟩
  · intro p q hq
    rw [hfinal]
    unfold BatchCore.dropnaCountry
    rw [List.mem_filter]
    constructor
    · intro h
      exact h.2
    · intro h
      exact ⟨(pipelineRows_mem _ rows p _).2 ⟨q, hq, rfl⟩, h⟩
  · intro completed' final' hcompleted' hconcat' hsorted' p q hq
    have hrows' : ((IpinfoBatch.chunkResults ipv4_data ipv6_data is_text_file chunk_size
        rows).map Prod.fst).flatten
        = BatchCore.pipelineRows (IpinfoBatch.classify ipv4_data ipv6_data) rows :=
      chunkResultsGo_rows (IpinfoBatch.classify ipv4_data ipv6_data) false is_text_file
        chunk_size hk rows.length 0 rows (le_refl _)
    have hperm' : final'.Perm
        (BatchCore.pipelineRows (IpinfoBatch.classify ipv4_data ipv6_data) rows) := by
      refine hconcat'.trans ?_
      rw [← hrows']
      exact perm_flatten (hcompleted'.map Prod.fst)
    have hfinal' := sorted_perm_eq_pipelineRows _ rows final' hperm' hsorted'
    rw [hfinal']
    exact (pipelineRows_mem _ rows p _).2 ⟨q, hq, rfl⟩

/-- Witness for C8 on a one-item input whose query matches the table. -/
theorem C8_output_after_dropna_witness :
    ((0 : Nat) < 1
    ∧ (GeoipBatch.chunkResults [⟨ipv4Num 10 0 0 0, ipv4Num 10 0 0 255, "US", "NA"⟩] []
        true 1 [QueryInput.addr 4 (ipv4Num 10 0 0 10) "10.0.0.10"]).Perm
        (GeoipBatch.chunkResults [⟨ipv4Num 10 0 0 0, ipv4Num 10 0 0 255, "US", "NA"⟩] []
          true 1 [QueryInput.addr 4 (ipv4Num 10 0 0 10) "10.0.0.10"])
    ∧ (((GeoipBatch.chunkResults [⟨ipv4Num 10 0 0 0, ipv4Num 10 0 0 255, "US", "NA"⟩] []
        true 1 [QueryInput.addr 4 (ipv4Num 10 0 0 10) "10.0.0.10"]).map Prod.fst).flatten).Perm
        (((GeoipBatch.chunkResults [⟨ipv4Num 10 0 0 0, ipv4Num 10 0 0 255, "US", "NA"⟩] []
          true 1 [QueryInput.addr 4 (ipv4Num 10 0 0 10) "10.0.0.10"]).map Prod.fst).flatten)
    ∧ (((GeoipBatch.chunkResults [⟨ipv4Num 10 0 0 0, ipv4Num 10 0 0 255, "US", "NA"⟩] []
        true 1 [QueryInput.addr 4 (ipv4Num 10 0 0 10) "10.0.0.10"]).map Prod.fst).flatten).Pairwise
        (fun a b => a.1 ≤ b.1))
    ∧ (BatchCore.dropnaCountry
        (((GeoipBatch.chunkResults [⟨ipv4Num 10 0 0 0, ipv4Num 10 0 0 255, "US", "NA"⟩] []
          true 1 [QueryInput.addr 4 (ipv4Num 10 0 0 10) "10.0.0.10"]).map Prod.fst).flatten)
        = (BatchCore.pipelineRows
            (GeoipBatch.classify [⟨ipv4Num 10 0 0 0, ipv4Num 10 0 0 255, "US", "NA"⟩] [])
            [QueryInput.addr 4 (ipv4Num 10 0 0 10) "10.0.0.10"]).filter
            (fun r => r.2.country.isSome)
      ∧ (∀ p q, [QueryInput.addr 4 (ipv4Num 10 0 0 10) "10.0.0.10"][p]? = some q →
          ((p, BatchCore.itemRow
              (GeoipBatch.classify [⟨ipv4Num 10 0 0 0, ipv4Num 10 0 0 255, "US", "NA"⟩] []) q)
              ∈ BatchCore.dropnaCountry
                (((GeoipBatch.chunkResults
                  [⟨ipv4Num 10 0 0 0, ipv4Num 10 0 0 255, "US", "NA"⟩] []
                  true 1 [QueryInput.addr 4 (ipv4Num 10 0 0 10) "10.0.0.10"]).map
                    Prod.fst).flatten)
            ↔ (BatchCore.itemRow
                (GeoipBatch.classify [⟨ipv4Num 10 0 0 0, ipv4Num 10 0 0 255, "US", "NA"⟩] [])
                q).country.isSome = true))
      ∧ (∀ (completed' : List (List (Nat × RowOut) × List FcccError))
          (final' : List (Nat × RowOut)),
          completed'.Perm
            (IpinfoBatch.chunkResults [⟨ipv4Num 10 0 0 0, ipv4Num 10 0 0 255, "US", "NA"⟩] []
              true 1 [QueryInput.addr 4 (ipv4Num 10 0 0 10) "10.0.0.10"]) →
          final'.Perm ((completed'.map Prod.fst).flatten) →
          final'.Pairwise (fun a b => a.1 ≤ b.1) →
          ∀ p q, [QueryInput.addr 4 (ipv4Num 10 0 0 10) "10.0.0.10"][p]? = some q →
            (p, BatchCore.itemRow
              (IpinfoBatch.classify [⟨ipv4Num 10 0 0 0, ipv4Num 10 0 0 255, "US", "NA"⟩] []) q)
              ∈ final')) :=
  ⟨⟨by decide, by decide, by decide, by decide⟩,
    C8_output_after_dropna [⟨ipv4Num 10 0 0 0, ipv4Num 10 0 0 255, "US", "NA"⟩] []
      true 1 [QueryInput.addr 4 (ipv4Num 10 0 0 10) "10.0.0.10"]
      (GeoipBatch.chunkResults [⟨ipv4Num 10 0 0 0, ipv4Num 10 0 0 255, "US", "NA"⟩] []
        true 1 [QueryInput.addr 4 (ipv4Num 10 0 0 10) "10.0.0.10"])
      (((GeoipBatch.chunkResults [⟨ipv4Num 10 0 0 0, ipv4Num 10 0 0 255, "US", "NA"⟩] []
        true 1 [QueryInput.addr 4 (ipv4Num 10 0 0 10) "10.0.0.10"]).map Prod.fst).flatten)
      (by decide) (by decide) (by decide) (by decide)⟩

/-! ### No-match handling of the two resolvers (claim C4) -/

/-- C4 counterexample: a well-formed address strictly outside the only
loaded interval makes find_country_continent_cidr of
geoip_csv_batch_query.py append a "No match found" message to its error
list, so a no-match does contribute an entry to the error collection
there. -/
theorem C4_counterexample :
    QueryInput.isMalformed (QueryInput.addr 4 (ipv4Num 192 168 0 1) "192.168.0.1") = false
    ∧ (GeoipBatch.find_country_continent_cidr
        [⟨ipv4Num 10 0 0 0, ipv4Num 10 0 0 255, "US", "NA"⟩] [] 0 true
        [QueryInput.addr 4 (ipv4Num 192 168 0 1) "192.168.0.1"]).errors
      = [FcccError.noMatch "192.168.0.1"] :=
  ⟨by decide, by decide⟩

/-- C4 as amended: a well-formed address outside every loaded interval of
its family resolves to an absent match (all three cells None) in both
batch scripts; the ipinfo_io resolver records no error for it, while the
geoip_csv_batch_query resolver appends one "No match found" error entry
for the unmatched item. -/
theorem C4_no_match_behavior (ipv4_data ipv6_data : List RangeRecord)
    (version value : Nat) (raw : String) (start_index : Nat) (is_text_file : Bool)
    (h : ∀ r ∈ (if version = 4 then ipv4_data else ipv6_data),
      ¬ (r.start_ip ≤ value ∧ r.end_ip ≥ value)) :
    GeoipBatch.find_country_continent_cidr ipv4_data ipv6_data start_index is_text_file
        [QueryInput.addr version value raw]
      = ⟨[none], [none], [none], [FcccError.noMatch raw]⟩
    ∧ IpinfoBatch.find_country_continent_cidr ipv4_data ipv6_data start_index is_text_file
        [QueryInput.addr version value raw]
      = ⟨[none], [none], [none], []⟩ := by
  have hfind : (if version = 4 then ipv4_data else ipv6_data).find?
      (fun r => decide (r.start_ip ≤ value) && decide (value ≤ r.end_ip)) = none := by
    apply List.find?_eq_none.2
    intro r hr
    simpa using h r hr
  constructor
  · simp [GeoipBatch.find_country_continent_cidr,
      BatchCore.find_country_continent_cidr, BatchCore.fcccGo,
      GeoipBatch.classify, hfind, QueryInput.raw]
  · simp [IpinfoBatch.find_country_continent_cidr,
      BatchCore.find_country_continent_cidr, BatchCore.fcccGo,
      IpinfoBatch.classify, hfind, QueryInput.raw]

/-- Witness for C4 at the counterexample's table and query. -/
theorem C4_no_match_behavior_witness :
    (∀ r ∈ (if 4 = 4 then [(⟨ipv4Num 10 0 0 0, ipv4Num 10 0 0 255, "US", "NA"⟩ : RangeRecord)]
        else []),
      ¬ (r.start_ip ≤ ipv4Num 192 168 0 1 ∧ r.end_ip ≥ ipv4Num 192 168 0 1))
    ∧ (GeoipBatch.find_country_continent_cidr
          [⟨ipv4Num 10 0 0 0, ipv4Num 10 0 0 255, "US", "NA"⟩] [] 0 true
          [QueryInput.addr 4 (ipv4Num 192 168 0 1) "192.168.0.1"]
        = ⟨[none], [none], [none], [FcccError.noMatch "192.168.0.1"]⟩
      ∧ IpinfoBatch.find_country_continent_cidr
          [⟨ipv4Num 10 0 0 0, ipv4Num 10 0 0 255, "US", "NA"⟩] [] 0 true
          [QueryInput.addr 4 (ipv4Num 192 168 0 1) "192.168.0.1"]
        = ⟨[none], [none], [none], []⟩) :=
  ⟨by decide, C4_no_match_behavior
    [⟨ipv4Num 10 0 0 0, ipv4Num 10 0 0 255, "US", "NA"⟩] []
    4 (ipv4Num 192 168 0 1) "192.168.0.1" 0 true (by decide)⟩

/-! ### Table construction error handling (claim C5) -/

/-- C5 counterexample: one row with an unparsable end address makes
load_geoip_data abort the whole load (pandas apply propagates the
ValueError): the following well-formed row is not loaded and no per-row
error is recorded, so a single bad row does abort construction. -/
theorem C5_counterexample :
    load_geoip_data demoParse
        [⟨"10.0.0.0", "nonsense", "US", "NA"⟩, ⟨"10.0.0.0", "10.0.0.255", "US", "NA"⟩]
      = .error "could not convert string to address" := rfl

/-- C5 as amended: in collect of geoip_csv_export.py a row with too few
columns is skipped, reported with its source line number, and collection
continues over the remaining rows (first conjunct: when every row is
either short or parsable, the result is the entries of the good rows plus
the line numbers of the short rows, in order); but a sufficiently wide row
whose addresses fail to parse aborts the whole collection (second
conjunct), and in load_geoip_data of the batch scripts any unparsable
address aborts the whole load with no partial table (third conjunct). -/
theorem C5_loader_error_handling (parseV4 parseV6 : String → Option Nat)
    (start_ip_col end_ip_col country_code_col : Nat) :
    (∀ (rows : List (List String)) (line_num : Nat),
      (∀ row ∈ rows, rowShort start_ip_col end_ip_col country_code_col row = true
        ∨ rowParses parseV4 parseV6 start_ip_col end_ip_col row = true) →
      collectGo parseV4 parseV6 start_ip_col end_ip_col country_code_col rows line_num
        = .ok (rows.filterMap
            (rowEntry parseV4 parseV6 start_ip_col end_ip_col country_code_col),
          shortLineNums start_ip_col end_ip_col country_code_col rows line_num))
    ∧ (∀ (row : List String) (rest : List (List String)) (line_num : Nat),
        rowShort start_ip_col end_ip_col country_code_col row = false →
        rowParses parseV4 parseV6 start_ip_col end_ip_col row = false →
        ∃ msg, collectGo parseV4 parseV6 start_ip_col end_ip_col country_code_col
          (row :: rest) line_num = .error msg)
    ∧ (∀ (parse : String → Option IPAddr) (r : RawRow) (rest : List RawRow),
        ((parse r.start_ip).isSome = false ∨ (parse r.end_ip).isSome = false) →
        ∃ msg, load_geoip_data parse (r :: rest) = .error msg) := by
  refine ⟨?_, ?_, ?_⟩
  · intro rows
    induction rows with
    | nil =>
      intro line_num hgood
      rfl
    | cons row rest ih =>
      intro line_num hgood
      have hrow := hgood row (List.mem_cons_self row rest)
      have hrest := ih (line_num + 1)
        (fun r hr => hgood r (List.mem_cons_of_mem row hr))
      by_cases hshort : rowShort start_ip_col end_ip_col country_code_col row = true
      · have hcond : row.length ≤ max start_ip_col (max end_ip_col country_code_col) := by
          simpa [rowShort] using hshort
        simp only [collectGo, if_pos hcond, hrest, List.filterMap_cons,
          rowEntry, hshort, if_true, shortLineNums]
      · have hparse : rowParses parseV4 parseV6 start_ip_col end_ip_col row = true := by
          rcases hrow with hrow | hrow
          · exact absurd hrow hshort
          · exact hrow
        have hcond : ¬ (row.length ≤ max start_ip_col (max end_ip_col country_code_col)) := by
          simp [rowShort] at hshort
          omega
        by_cases hcolon : strContains (row.getD start_ip_col "") ':' = true
        · rw [rowParses, if_pos hcolon] at hparse
          obtain ⟨ha, hb⟩ := Bool.and_eq_true_iff.1 hparse
          obtain ⟨a, ha'⟩ := Option.isSome_iff_exists.1 ha
          obtain ⟨b, hb'⟩ := Option.isSome_iff_exists.1 hb
          simp only [collectGo, if_neg hcond, if_pos hcolon, ha', hb', hrest,
            List.filterMap_cons, rowEntry, hshort, if_neg, if_false,
            Bool.false_eq_true, shortLineNums]
        · rw [rowParses, if_neg hcolon] at hparse
          obtain ⟨ha, hb⟩ := Bool.and_eq_true_iff.1 hparse
          obtain ⟨a, ha'⟩ := Option.isSome_iff_exists.1 ha
          obtain ⟨b, hb'⟩ := Option.isSome_iff_exists.1 hb
          simp only [collectGo, if_neg hcond, if_neg hcolon, ha', hb', hrest,
            List.filterMap_cons, rowEntry, hshort, if_neg, if_false,
            Bool.false_eq_true, shortLineNums]
  · intro row rest line_num hshort hparse
    have hcond : ¬ (row.length ≤ max start_ip_col (max end_ip_col country_code_col)) := by
      simp [rowShort] at hshort
      omega
    by_cases hcolon : strContains (row.getD start_ip_col "") ':' = true
    · rw [rowParses, if_pos hcolon] at hparse
      simp only [collectGo, if_neg hcond, if_pos hcolon]
      cases ha : parseV6 (row.getD start_ip_col "") with
      | none => exact ⟨_, rfl⟩
      | some a =>
        cases hb : parseV6 (row.getD end_ip_col "") with
        | none => exact ⟨_, rfl⟩
        | some b =>
          rw [ha, hb] at hparse
          simp at hparse
    · rw [rowParses, if_neg hcolon] at hparse
      simp only [collectGo, if_neg hcond, if_neg hcolon]
      cases ha : parseV4 (row.getD start_ip_col "") with
      | none => exact ⟨_, rfl⟩
      | some a =>
        cases hb : parseV4 (row.getD end_ip_col "") with
        | none => exact ⟨_, rfl⟩
        | some b =>
          rw [ha, hb] at hparse
          simp at hparse
  · intro parse r rest hbad
    simp only [load_geoip_data]
    cases ha : parse r.start_ip with
    | none => exact ⟨_, rfl⟩
    | some a =>
      cases hb : parse r.end_ip with
      | none => exact ⟨_, rfl⟩
      | some b =>
        rw [ha, hb] at hbad
        simp at hbad

/-- Witness for C5: a parsable row followed by a short row collects into
one entry and one reported line number. -/
theorem C5_loader_error_handling_witness :
    (∀ row ∈ [["10.0.0.0", "10.0.0.255", "US"], ["short"]],
      rowShort 0 1 2 row = true ∨ rowParses demoParseV4 demoParseV6 0 1 row = true)
    ∧ collectGo demoParseV4 demoParseV6 0 1 2
        [["10.0.0.0", "10.0.0.255", "US"], ["short"]] 1
      = .ok ([["10.0.0.0", "10.0.0.255", "US"], ["short"]].filterMap
          (rowEntry demoParseV4 demoParseV6 0 1 2),
        shortLineNums 0 1 2 [["10.0.0.0", "10.0.0.255", "US"], ["short"]] 1) :=
  ⟨by decide,
    (C5_loader_error_handling demoParseV4 demoParseV6 0 1 2).1
      [["10.0.0.0", "10.0.0.255", "US"], ["short"]] 1 (by decide)⟩

/-! ### Schema detection (claim C7) -/

/-- C7 counterexample: a first row matching none of the three recognized
patterns does not make detect_format_and_collect of geoip_csv_export.py
fail: it proceeds with the caller-supplied column indices and returns a
result (here the two-field row is then reported as short and skipped), so
the export-side detector never raises UnknownSchema. -/
theorem C7_counterexample :
    (¬ (["foo", "bar"] = ipinfoHeader))
    ∧ (¬ ((["foo", "bar"] : List String).length = 3
        ∧ (((["foo", "bar"] : List String).take 2).all fun f => strContains f '.') = true))
    ∧ (¬ (["foo", "bar"] = ipapiHeader))
    ∧ detect_format_and_collect demoParseV4 demoParseV6 false 0 1 2 ["foo", "bar"] []
      = .ok ([], [2]) :=
  ⟨by decide, by decide, by decide, rfl⟩

/-- C7 as amended: detect_format_and_load of geoip_csv_batch_query.py
checks the three dialects in priority order, selects the first match
(dialect 1 keeps the columns, dialect 2 renames the three columns, dialect
3 renames country_code), and fails with "Unknown CSV format." exactly when
none matches; detect_format_and_collect of geoip_csv_export.py instead
checks an exact ipinfo.io header, the dotted three-column shape, and an
exact ipapi.is header, and when none of those matches it does not fail
but falls back to the caller-supplied column indices and header flag. -/
theorem C7_schema_detection (columns firstRow : List String) :
    ((∃ msg, detect_format_and_load columns firstRow = .error msg) ↔
      (¬ ("start_ip" ∈ columns ∧ "end_ip" ∈ columns ∧ "country" ∈ columns)
        ∧ ¬ (columns.length = 3 ∧ ((firstRow.take 2).all fun f => strContains f '.') = true)
        ∧ ¬ ("ip_version" ∈ columns ∧ "start_ip" ∈ columns ∧ "end_ip" ∈ columns
          ∧ "country_code" ∈ columns)))
    ∧ (("start_ip" ∈ columns ∧ "end_ip" ∈ columns ∧ "country" ∈ columns) →
        detect_format_and_load columns firstRow = .ok columns)
    ∧ (¬ ("start_ip" ∈ columns ∧ "end_ip" ∈ columns ∧ "country" ∈ columns) →
        (columns.length = 3 ∧ ((firstRow.take 2).all fun f => strContains f '.') = true) →
        detect_format_and_load columns firstRow = .ok ["start_ip", "end_ip", "country"])
    ∧ (¬ ("start_ip" ∈ columns ∧ "end_ip" ∈ columns ∧ "country" ∈ columns) →
        ¬ (columns.length = 3 ∧ ((firstRow.take 2).all fun f => strContains f '.') = true) →
        ("ip_version" ∈ columns ∧ "start_ip" ∈ columns ∧ "end_ip" ∈ columns
          ∧ "country_code" ∈ columns) →
        detect_format_and_load columns firstRow
          = .ok (columns.map fun c => if c = "country_code" then "country" else c))
    ∧ (∀ (parseV4 parseV6 : String → Option Nat) (ignore_first_row : Bool)
        (start_ip_col end_ip_col country_code_col : Nat) (rest : List (List String)),
        ¬ (firstRow = ipinfoHeader) →
        ¬ (firstRow.length = 3 ∧ ((firstRow.take 2).all fun f => strContains f '.') = true) →
        ¬ (firstRow = ipapiHeader) →
        detect_format_and_collect parseV4 parseV6 ignore_first_row
            start_ip_col end_ip_col country_code_col firstRow rest
          = collect parseV4 parseV6 start_ip_col end_ip_col country_code_col
            (if ignore_first_row then rest else firstRow :: rest)) := by
  refine ⟨?_, ?_, ?_, ?_, ?_⟩
  · constructor
    · rintro ⟨msg, hmsg⟩
      by_cases h1 : "start_ip" ∈ columns ∧ "end_ip" ∈ columns ∧ "country" ∈ columns
      · rw [detect_format_and_load, if_pos h1] at hmsg
        cases hmsg
      · by_cases h2 : columns.length = 3
            ∧ ((firstRow.take 2).all fun f => strContains f '.') = true
        · rw [detect_format_and_load, if_neg h1, if_pos h2] at hmsg
          cases hmsg
        · by_cases h3 : "ip_version" ∈ columns ∧ "start_ip" ∈ columns
              ∧ "end_ip" ∈ columns ∧ "country_code" ∈ columns
          · rw [detect_format_and_load, if_neg h1, if_neg h2, if_pos h3] at hmsg
            cases hmsg
          · exact ⟨h1, h2, h3⟩
    · rintro ⟨h1, h2, h3⟩
      refine ⟨"Unknown CSV format.", ?_⟩
      rw [detect_format_and_load, if_neg h1, if_neg h2, if_neg h3]
  · intro h1
    rw [detect_format_and_load, if_pos h1]
  · intro h1 h2
    rw [detect_format_and_load, if_neg h1, if_pos h2]
  · intro h1 h2 h3
    rw [detect_format_and_load, if_neg h1, if_neg h2, if_pos h3]
  · intro parseV4 parseV6 ignore_first_row start_ip_col end_ip_col country_code_col rest
      h1 h2 h3
    rw [detect_format_and_collect]
    simp only [if_neg h1, if_neg h2, if_neg h3]

/-- Witness for C7 at the unknown two-field first row with default
configuration. -/
theorem C7_schema_detection_witness :
    ((∃ msg, detect_format_and_load ["foo", "bar"] ["foo", "bar"] = .error msg) ↔
      (¬ ("start_ip" ∈ (["foo", "bar"] : List String)
          ∧ "end_ip" ∈ (["foo", "bar"] : List String)
          ∧ "country" ∈ (["foo", "bar"] : List String))
        ∧ ¬ ((["foo", "bar"] : List String).length = 3
          ∧ (((["foo", "bar"] : List String).take 2).all fun f => strContains f '.') = true)
        ∧ ¬ ("ip_version" ∈ (["foo", "bar"] : List String)
          ∧ "start_ip" ∈ (["foo", "bar"] : List String)
          ∧ "end_ip" ∈ (["foo", "bar"] : List String)
          ∧ "country_code" ∈ (["foo", "bar"] : List String))))
    ∧ (("start_ip" ∈ (["foo", "bar"] : List String)
        ∧ "end_ip" ∈ (["foo", "bar"] : List String)
        ∧ "country" ∈ (["foo", "bar"] : List String)) →
        detect_format_and_load ["foo", "bar"] ["foo", "bar"] = .ok ["foo", "bar"])
    ∧ (¬ ("start_ip" ∈ (["foo", "bar"] : List String)
        ∧ "end_ip" ∈ (["foo", "bar"] : List String)
        ∧ "country" ∈ (["foo", "bar"] : List String)) →
        ((["foo", "bar"] : List String).length = 3
          ∧ (((["foo", "bar"] : List String).take 2).all fun f => strContains f '.') = true) →
        detect_format_and_load ["foo", "bar"] ["foo", "bar"]
          = .ok ["start_ip", "end_ip", "country"])
    ∧ (¬ ("start_ip" ∈ (["foo", "bar"] : List String)
        ∧ "end_ip" ∈ (["foo", "bar"] : List String)
        ∧ "country" ∈ (["foo", "bar"] : List String)) →
        ¬ ((["foo", "bar"] : List String).length = 3
          ∧ (((["foo", "bar"] : List String).take 2).all fun f => strContains f '.') = true) →
        ("ip_version" ∈ (["foo", "bar"] : List String)
          ∧ "start_ip" ∈ (["foo", "bar"] : List String)
          ∧ "end_ip" ∈ (["foo", "bar"] : List String)
          ∧ "country_code" ∈ (["foo", "bar"] : List String)) →
        detect_format_and_load ["foo", "bar"] ["foo", "bar"]
          = .ok ((["foo", "bar"] : List String).map
              fun c => if c = "country_code" then "country" else c))
    ∧ (∀ (parseV4 parseV6 : String → Option Nat) (ignore_first_row : Bool)
        (start_ip_col end_ip_col country_code_col : Nat) (rest : List (List String)),
        ¬ ((["foo", "bar"] : List String) = ipinfoHeader) →
        ¬ ((["foo", "bar"] : List String).length = 3
          ∧ (((["foo", "bar"] : List String).take 2).all fun f => strContains f '.') = true) →
        ¬ ((["foo", "bar"] : List String) = ipapiHeader) →
        detect_format_and_collect parseV4 parseV6 ignore_first_row
            start_ip_col end_ip_col country_code_col ["foo", "bar"] rest
          = collect parseV4 parseV6 start_ip_col end_ip_col country_code_col
            (if ignore_first_row then rest else ["foo", "bar"] :: rest)) :=
  C7_schema_detection ["foo", "bar"] ["foo", "bar"]

/-! ### Default chunking (claim C9) -/

set_option maxRecDepth 4000 in
/-- C9 counterexample: the default chunk size is the constant 500 of
parse_arguments, not the whole input, so an input of 501 items is split
into two chunks under the default configuration instead of one. -/
theorem C9_counterexample :
    default_chunk_size = 500
    ∧ (splitChunks default_chunk_size
        (List.replicate 501 (QueryInput.malformed "x"))).length = 2
    ∧ (splitChunks default_chunk_size
        (List.replicate 501 (QueryInput.malformed "x"))).length ≠ 1 := by
  refine ⟨rfl, ?_, ?_⟩ <;> decide

/-- C9 as amended: the default chunk size is the fixed value 500, so the
partition under the default configuration is one single chunk spanning the
whole input exactly for nonempty inputs of at most 500 items; longer
inputs are split into several chunks of at most 500 items each. -/
theorem C9_default_chunk_size (rows : List QueryInput)
    (h1 : rows ≠ []) (h2 : rows.length ≤ 500) :
    splitChunks default_chunk_size rows = [rows] := by
  cases rows with
  | nil => cases h1 rfl
  | cons q rest =>
    show splitChunksGo default_chunk_size (q :: rest).length (q :: rest) = [q :: rest]
    have hlen : (q :: rest).length = rest.length + 1 := rfl
    rw [hlen]
    show ((q :: rest).take default_chunk_size)
        :: splitChunksGo default_chunk_size rest.length ((q :: rest).drop default_chunk_size)
      = [q :: rest]
    have hle : (q :: rest).length ≤ default_chunk_size := by
      simpa [default_chunk_size] using h2
    rw [List.take_of_length_le hle, List.drop_eq_nil_of_le hle]
    cases rest.length <;> rfl

/-- Witness for C9 on a one-item input. -/
theorem C9_default_chunk_size_witness :
    ([QueryInput.malformed "x"] ≠ ([] : List QueryInput)
    ∧ ([QueryInput.malformed "x"] : List QueryInput).length ≤ 500)
    ∧ splitChunks default_chunk_size [QueryInput.malformed "x"]
      = [[QueryInput.malformed "x"]] :=
  ⟨⟨by decide, by decide⟩,
    C9_default_chunk_size [QueryInput.malformed "x"] (by decide) (by decide)⟩
